import Mathlib

/-!
Formal model of the text-segmentation and prompt-synthesis pipeline of
`backend/main.py` (long-text-to-images app), with theorems settling the
frozen specification claims.

Conventions of the shallow embedding:
* Python strings are modelled as `List Char` (Python strings are sequences
  of Unicode code points, as is `List Char`); `len` is `List.length`.
* Python `str.strip()` is `pyStrip` (Python's Unicode whitespace set).
* Python substring tests (`kw in text`) are `isSubstr`.
* Machine/float arithmetic: the only floating point in the modelled code is
  the weighted theme score `0.4*k+0.3*s+0.2*e+0.1*a` and the position test
  `pos < len*0.3`.  Both are modelled exactly over integers (scale by 10):
  the theorems proved below only depend on score values through "all scores
  are zero" or not at all, and `0.0` is exact in IEEE 754, so the integer
  scaling is faithful for every statement made here.
* Fallible code returns `Except String`.
-/

/-- Shorthand: a Lean string literal as the `List Char` the model works on. -/
def cs (s : String) : List Char := s.toList

/-- Python `str.isspace` (the set stripped by `str.strip()`). -/
def pyIsSpace (c : Char) : Bool :=
  let n := c.toNat
  (9 ≤ n && n ≤ 13) || (28 ≤ n && n ≤ 32) || n == 133 || n == 160 ||
  n == 0x1680 || (0x2000 ≤ n && n ≤ 0x200A) || n == 0x2028 || n == 0x2029 ||
  n == 0x202F || n == 0x205F || n == 0x3000

/-- Python `s.strip()`. -/
def pyStrip (s : List Char) : List Char :=
  ((s.dropWhile pyIsSpace).reverse.dropWhile pyIsSpace).reverse

/-- Python substring containment `pat in s`. -/
def isSubstr (pat : List Char) : List Char → Bool
  | [] => pat.isEmpty
  | c :: rest => pat.isPrefixOf (c :: rest) || isSubstr pat rest

/-- Does any keyword of the list occur in `s` (`any(kw in s for kw in kws)`)? -/
def anyKw (kws : List (List Char)) (s : List Char) : Bool :=
  kws.any (fun kw => isSubstr kw s)

/-- Fuelled non-overlapping occurrence count (Python `s.count(pat)`),
for non-empty `pat`; fuel ≥ `s.length` suffices. -/
def countSubF (pat : List Char) : Nat → List Char → Nat
  | 0, _ => 0
  | _ + 1, [] => 0
  | f + 1, c :: rest =>
    if pat.isPrefixOf (c :: rest) then
      1 + countSubF pat f (List.drop (pat.length - 1) rest)
    else
      countSubF pat f rest

/-- Python `s.count(pat)` for non-empty `pat`. -/
def countSub (pat s : List Char) : Nat := countSubF pat s.length s

/-- Python `s.find(pat)` as an `Option` index (first occurrence). -/
def findSub (pat : List Char) : List Char → Option Nat
  | [] => if pat.isEmpty then some 0 else none
  | c :: rest =>
    if pat.isPrefixOf (c :: rest) then some 0
    else (findSub pat rest).map (· + 1)

/-- Prepend a char to the first piece of a split result. -/
def consHead (c : Char) : List (List Char) → List (List Char)
  | [] => [[c]]
  | l :: ls => (c :: l) :: ls

/-- Fuelled Python `s.split(sep)` for a non-empty separator: leftmost,
non-overlapping, keeps empty pieces; fuel ≥ `s.length` suffices. -/
def splitSubF (sep : List Char) : Nat → List Char → List (List Char)
  | 0, t => [t]
  | _ + 1, [] => [[]]
  | f + 1, c :: rest =>
    if sep.isPrefixOf (c :: rest) then
      [] :: splitSubF sep f (List.drop (sep.length - 1) rest)
    else consHead c (splitSubF sep f rest)

/-- Python `text.split('\n\n')`. -/
def splitParas (t : List Char) : List (List Char) :=
  splitSubF (cs "\n\n") t.length t

/-- Python `re.split` on a single-character class: split at every char of
`seps`, keeping empty pieces. -/
def splitOnCharList (seps : List Char) : List Char → List (List Char)
  | [] => [[]]
  | c :: rest =>
    if seps.contains c then [] :: splitOnCharList seps rest
    else consHead c (splitOnCharList seps rest)

/-- Fuelled Python `s.split()` (split on whitespace runs, dropping empties). -/
def pySplitWsF : Nat → List Char → List (List Char)
  | 0, _ => []
  | _ + 1, [] => []
  | f + 1, c :: rest =>
    if pyIsSpace c then pySplitWsF f rest
    else
      (c :: rest.takeWhile (fun d => !pyIsSpace d)) ::
        pySplitWsF f (rest.dropWhile (fun d => !pyIsSpace d))

/-- Python `s.split()`. -/
def pySplitWs (s : List Char) : List (List Char) := pySplitWsF (s.length + 1) s

/-- Python `str.lower()`, modelled on the ASCII range (every keyword table in
the program is Chinese or lowercase ASCII, and CJK characters have no case
mapping, so this is faithful for all tests the program performs). -/
def pyLower (s : List Char) : List Char :=
  s.map (fun c => if 'A' ≤ c && c ≤ 'Z' then Char.ofNat (c.toNat + 32) else c)

/-- `current_segment += "\n\n" + para if current_segment else para`. -/
def joinNN (cur para : List Char) : List Char :=
  if cur.isEmpty then para else cur ++ '\n' :: '\n' :: para

/-- Fuelled equal slices: `[t[i:i+L] for i in range(0, len(t), L)]` with
`L = lm1 + 1 ≥ 1`; fuel ≥ `t.length` suffices. -/
def slicesF {α : Type} (lm1 : Nat) : Nat → List α → List (List α)
  | 0, t => if t.isEmpty then [] else [t]
  | _ + 1, [] => []
  | f + 1, c :: rest => (c :: rest.take lm1) :: slicesF lm1 f (rest.drop lm1)

/-- `[t[i:i+L] for i in range(0, len(t), L)]` for `L = lm1 + 1`. -/
def slices {α : Type} (lm1 : Nat) (t : List α) : List (List α) :=
  slicesF lm1 t.length t

/-- UTF-8 encoding of one code point. -/
def utf8Bytes (c : Char) : List Nat :=
  let n := c.toNat
  if n < 0x80 then [n]
  else if n < 0x800 then [0xC0 + n / 64, 0x80 + n % 64]
  else if n < 0x10000 then
    [0xE0 + n / 4096, 0x80 + (n / 64) % 64, 0x80 + n % 64]
  else
    [0xF0 + n / 262144, 0x80 + (n / 4096) % 64, 0x80 + (n / 64) % 64,
     0x80 + n % 64]

/-- Python `s.encode('utf-8')` as a byte list. -/
def utf8Encode (s : List Char) : List Nat := (s.map utf8Bytes).flatten

/-- Fuelled decimal digits of a natural number. -/
def decimalF : Nat → Nat → List Char
  | 0, _ => []
  | f + 1, n =>
    if n < 10 then [Char.ofNat (48 + n)]
    else decimalF f (n / 10) ++ [Char.ofNat (48 + n % 10)]

/-- Python `str(n)` for a natural number. -/
def decimalRepr (n : Nat) : List Char := decimalF (n + 1) n

/-! ## MD5 (RFC 1321), modelled over `Nat` with explicit reduction mod 2^32.

`backend/main.py` selects fallback images with
`int(hashlib.md5(key).hexdigest(), 16) % pool_size`; `hashlib.md5` is an
external library, embedded here by its standard definition. -/

def m32 : Nat := 4294967296

/-- 32-bit left rotation on `x < 2^32`. -/
def rotl32 (x s : Nat) : Nat := (x * 2 ^ s) % m32 + x / 2 ^ (32 - s)

/-- 32-bit complement of `x < 2^32`. -/
def bnot32 (x : Nat) : Nat := Nat.xor x 4294967295

/-- MD5 sine-derived constant table `K`. -/
def md5K : List Nat :=
  [3614090360, 3905402710, 606105819, 3250441966, 4118548399, 1200080426,
   2821735955, 4249261313, 1770035416, 2336552879, 4294925233, 2304563134,
   1804603682, 4254626195, 2792965006, 1236535329, 4129170786, 3225465664,
   643717713, 3921069994, 3593408605, 38016083, 3634488961, 3889429448,
   568446438, 3275163606, 4107603335, 1163531501, 2850285829, 4243563512,
   1735328473, 2368359562, 4294588738, 2272392833, 1839030562, 4259657740,
   2763975236, 1272893353, 4139469664, 3200236656, 681279174, 3936430074,
   3572445317, 76029189, 3654602809, 3873151461, 530742520, 3299628645,
   4096336452, 1126891415, 2878612391, 4237533241, 1700485571, 2399980690,
   4293915773, 2240044497, 1873313359, 4264355552, 2734768916, 1309151649,
   4149444226, 3174756917, 718787259, 3951481745]

/-- MD5 per-round shift table `s`. -/
def md5S : List Nat :=
  [7, 12, 17, 22, 7, 12, 17, 22, 7, 12, 17, 22, 7, 12, 17, 22,
   5, 9, 14, 20, 5, 9, 14, 20, 5, 9, 14, 20, 5, 9, 14, 20,
   4, 11, 16, 23, 4, 11, 16, 23, 4, 11, 16, 23, 4, 11, 16, 23,
   6, 10, 15, 21, 6, 10, 15, 21, 6, 10, 15, 21, 6, 10, 15, 21]

/-- Little-endian 4-byte encoding of a 32-bit word. -/
def le4 (n : Nat) : List Nat :=
  [n % 256, n / 256 % 256, n / 65536 % 256, n / 16777216 % 256]

/-- Little-endian 8-byte encoding of a 64-bit length. -/
def le8 (n : Nat) : List Nat :=
  [n % 256, n / 256 % 256, n / 65536 % 256, n / 16777216 % 256,
   n / 4294967296 % 256, n / 1099511627776 % 256,
   n / 281474976710656 % 256, n / 72057594037927936 % 256]

/-- MD5 padding: append `0x80`, zeros to 56 mod 64, then the 64-bit
little-endian bit length. -/
def md5Pad (msg : List Nat) : List Nat :=
  msg ++ [0x80] ++ List.replicate ((119 - msg.length % 64) % 64) 0 ++
    le8 (msg.length * 8 % 2 ^ 64)

/-- The 16 little-endian 32-bit words of one 64-byte block. -/
def md5Words (block : List Nat) : List Nat :=
  (slices 3 block).map
    (fun b => b.getD 0 0 + 256 * b.getD 1 0 + 65536 * b.getD 2 0 +
      16777216 * b.getD 3 0)

/-- One MD5 round `i` on state `(a, b, c, d)` with message words `w`. -/
def md5Round (w : List Nat) (st : Nat × Nat × Nat × Nat) (i : Nat) :
    Nat × Nat × Nat × Nat :=
  let a := st.1
  let b := st.2.1
  let c := st.2.2.1
  let d := st.2.2.2
  let fg : Nat × Nat :=
    if i < 16 then (Nat.lor (Nat.land b c) (Nat.land (bnot32 b) d), i)
    else if i < 32 then
      (Nat.lor (Nat.land d b) (Nat.land (bnot32 d) c), (5 * i + 1) % 16)
    else if i < 48 then (Nat.xor (Nat.xor b c) d, (3 * i + 5) % 16)
    else (Nat.xor c (Nat.lor b (bnot32 d)), (7 * i) % 16)
  let sum := (a + fg.1 + md5K.getD i 0 + w.getD fg.2 0) % m32
  (d, (b + rotl32 sum (md5S.getD i 0)) % m32, b, c)

/-- Process one 64-byte block. -/
def md5Block (st : Nat × Nat × Nat × Nat) (block : List Nat) :
    Nat × Nat × Nat × Nat :=
  let w := md5Words block
  let r := (List.range 64).foldl (md5Round w) st
  ((st.1 + r.1) % m32, (st.2.1 + r.2.1) % m32, (st.2.2.1 + r.2.2.1) % m32,
   (st.2.2.2 + r.2.2.2) % m32)

/-- MD5 digest (16 bytes) of a byte list. -/
def md5Digest (msg : List Nat) : List Nat :=
  let st := (slices 63 (md5Pad msg)).foldl md5Block
    (1732584193, 4023233417, 2562383102, 271733878)
  le4 st.1 ++ le4 st.2.1 ++ le4 st.2.2.1 ++ le4 st.2.2.2

/-- Python `int(hashlib.md5(msg).hexdigest(), 16)`: the digest bytes read as
one big-endian integer (hex digits in digest order). -/
def md5HexInt (msg : List Nat) : Nat :=
  (md5Digest msg).foldl (fun acc b => acc * 256 + b) 0

set_option maxRecDepth 10000

/-- Sanity check of the MD5 model against the RFC 1321 test vector. -/
theorem md5_check_abc :
    md5HexInt (utf8Encode (cs "abc")) =
      191415658344158766168031473277922803570 := by decide

/-- Sanity check: MD5 of the empty message (RFC 1321 test vector,
`d41d8cd98f00b204e9800998ecf8427e`). -/
theorem md5_check_empty :
    md5HexInt [] = 281949768489412648962353822266799178366 := by decide

/-! ## Text-type classifier (`_detect_text_type`, main.py lines 1129-1146) -/

def narrativeKeywords : List (List Char) :=
  [cs "故事", cs "情节", cs "人物", cs "对话", cs "场景", cs "时间", cs "地点",
   cs "发生", cs "经历", cs "遇到"]

def argumentativeKeywords : List (List Char) :=
  [cs "观点", cs "论证", cs "认为", cs "因为", cs "所以", cs "然而", cs "但是",
   cs "首先", cs "其次", cs "总之"]

def descriptiveKeywords : List (List Char) :=
  [cs "介绍", cs "说明", cs "特点", cs "功能", cs "方法", cs "步骤", cs "原理",
   cs "结构", cs "组成"]

/-- `sum(1 for keyword in keywords if keyword in text)`. -/
def kwScore (kws : List (List Char)) (text : List Char) : Nat :=
  (kws.filter (fun kw => isSubstr kw text)).length

/-- `_detect_text_type`. -/
def detectTextType (text : List Char) : List Char :=
  let n := kwScore narrativeKeywords text
  let a := kwScore argumentativeKeywords text
  let d := kwScore descriptiveKeywords text
  if n ≥ a && n ≥ d then cs "narrative"
  else if a ≥ d then cs "argumentative"
  else cs "descriptive"

/-! ## Segmenter (`_smart_segment_text`, main.py lines 1148-1238) -/

def sceneMarkers : List (List Char) :=
  [cs "突然", cs "接着", cs "然后", cs "后来", cs "最后", cs "终于", cs "此时",
   cs "这时", cs "当时", cs "那天", cs "第二天"]

def dialogueMarkers : List (List Char) :=
  [cs "说道", cs "回答", cs "问道", cs "喊道", cs "笑着说", cs "严肃地说"]

def argumentMarkers : List (List Char) :=
  [cs "首先", cs "其次", cs "再次", cs "最后", cs "另外", cs "此外", cs "然而",
   cs "但是", cs "因此", cs "所以"]

def dimensionMarkers : List (List Char) :=
  [cs "外观", cs "功能", cs "特点", cs "优势", cs "方法", cs "步骤", cs "原理",
   cs "结构", cs "用途", cs "效果"]

/-- Append `pyStrip cur` when it is non-empty
(`if current_segment.strip(): segments.append(current_segment.strip())`). -/
def pushStripped (segs : List (List Char)) (cur : List Char) :
    List (List Char) :=
  if (pyStrip cur).isEmpty then segs else segs ++ [pyStrip cur]

/-- The narrative length check: flush the accumulated chunk (guarded
non-empty) before adding the paragraph, else append the paragraph. -/
def narrStep1 (segs : List (List Char)) (cur para : List Char) :
    List (List Char) × List Char :=
  if cur.length + para.length > 1200 then (pushStripped segs cur, para)
  else (segs, joinNN cur para)

/-- The narrative scene-marker check: flush the accumulated chunk
(unguarded, it now contains the paragraph) when a marker occurs in the
paragraph and the chunk exceeds 500 characters. -/
def narrStep2 (st : List (List Char) × List Char) (para : List Char) :
    List (List Char) × List Char :=
  if anyKw sceneMarkers para && decide (st.2.length > 500) then
    (st.1 ++ [pyStrip st.2], [])
  else st

/-- One iteration of the narrative loop. -/
def narrStep : List (List Char) × List Char → List Char →
    List (List Char) × List Char
  | (segs, cur), para => narrStep2 (narrStep1 segs cur para) para

/-- The argumentative marker check: flush the accumulated chunk (guarded
non-empty) before adding the paragraph, else append the paragraph. -/
def argStep1 (segs : List (List Char)) (cur para : List Char) :
    List (List Char) × List Char :=
  if anyKw argumentMarkers para && decide (cur.length > 600) then
    (pushStripped segs cur, para)
  else (segs, joinNN cur para)

/-- The argumentative length check: flush the accumulated chunk (unguarded,
it may contain the paragraph) when it exceeds 1500 characters. -/
def argStep2 (st : List (List Char) × List Char) :
    List (List Char) × List Char :=
  if st.2.length > 1500 then (st.1 ++ [pyStrip st.2], []) else st

/-- One iteration of the argumentative loop. -/
def argStep : List (List Char) × List Char → List Char →
    List (List Char) × List Char
  | (segs, cur), para => argStep2 (argStep1 segs cur para)

/-- The descriptive marker check (structure of `argStep1` with the dimension
markers). -/
def descStep1 (segs : List (List Char)) (cur para : List Char) :
    List (List Char) × List Char :=
  if anyKw dimensionMarkers para && decide (cur.length > 600) then
    (pushStripped segs cur, para)
  else (segs, joinNN cur para)

/-- The descriptive length check (threshold 1200). -/
def descStep2 (st : List (List Char) × List Char) :
    List (List Char) × List Char :=
  if st.2.length > 1200 then (st.1 ++ [pyStrip st.2], []) else st

/-- One iteration of the descriptive loop. -/
def descStep : List (List Char) × List Char → List Char →
    List (List Char) × List Char
  | (segs, cur), para => descStep2 (descStep1 segs cur para)

/-- Primary segmentation of one text with a given per-paragraph step,
flushing the final accumulated chunk if non-empty after trimming. -/
def primarySeg
    (step : List (List Char) × List Char → List Char →
      List (List Char) × List Char) (text : List Char) : List (List Char) :=
  let r := (splitParas text).foldl step ([], [])
  pushStripped r.1 r.2

/-- The length-based fallback: `target = min(5, max(3, len // 800))`,
`L = len // target`, slices of length `L`, each appended stripped when
non-empty.  Python raises `ValueError` from `range(0, n, 0)` when `L = 0`
(inputs shorter than 3 characters), modelled as `Except.error`. -/
def fallbackSeg (text : List Char) : Except String (List (List Char)) :=
  let tl := text.length
  let target := min 5 (max 3 (tl / 800))
  let segLen := tl / target
  if segLen = 0 then Except.error (cs "range() arg 3 must not be zero").asString
  else
    Except.ok (((slices (segLen - 1) text).map pyStrip).filter
      (fun s => !s.isEmpty))

/-- `_smart_segment_text`: primary segmentation by type, the sanity fallback
when fewer than 2 or more than 8 chunks resulted, then `segments[:6]`. -/
def smartSegmentText (text ttype : List Char) :
    Except String (List (List Char)) :=
  let segs :=
    if ttype = cs "narrative" then primarySeg narrStep text
    else if ttype = cs "argumentative" then primarySeg argStep text
    else primarySeg descStep text
  if segs.length < 2 || segs.length > 8 then
    (fallbackSeg text).map (fun l => l.take 6)
  else Except.ok (segs.take 6)

/-! ## Helper lemmas on the string primitives -/

theorem slicesF_flatten {α : Type} (lm1 : Nat) :
    ∀ (f : Nat) (t : List α), (slicesF lm1 f t).flatten = t := by
  intro f
  induction f with
  | zero => intro t; cases t <;> simp [slicesF]
  | succ f ih =>
    intro t
    cases t with
    | nil => simp [slicesF]
    | cons c rest =>
      simp only [slicesF, List.flatten_cons, ih, List.cons_append]
      rw [List.take_append_drop]

theorem slicesF_length {α : Type} (lm1 : Nat) :
    ∀ (f : Nat) (t : List α), t.length ≤ f →
      (slicesF lm1 f t).length = (t.length + lm1) / (lm1 + 1) := by
  intro f
  induction f with
  | zero =>
    intro t ht
    have : t = [] := List.eq_nil_of_length_eq_zero (by omega)
    subst this
    simp [slicesF, Nat.div_eq_of_lt (by omega : lm1 < lm1 + 1)]
  | succ f ih =>
    intro t ht
    cases t with
    | nil => simp [slicesF, Nat.div_eq_of_lt (by omega : lm1 < lm1 + 1)]
    | cons c rest =>
      have ht' : rest.length ≤ f := by
        simp only [List.length_cons] at ht; omega
      simp only [slicesF, List.length_cons]
      rw [ih (rest.drop lm1) (by rw [List.length_drop]; omega)]
      rw [List.length_drop]
      by_cases h : lm1 ≤ rest.length
      · rw [Nat.sub_add_cancel h,
          show rest.length + 1 + lm1 = rest.length + (lm1 + 1) by omega,
          Nat.add_div_right _ (by omega)]
      · rw [show rest.length - lm1 + lm1 = lm1 by omega,
          Nat.div_eq_of_lt (by omega : lm1 < lm1 + 1),
          show rest.length + 1 + lm1 = rest.length + (lm1 + 1) by omega,
          Nat.add_div_right _ (by omega),
          Nat.div_eq_of_lt (by omega : rest.length < lm1 + 1)]

theorem pyStrip_eq_nil_iff (s : List Char) :
    pyStrip s = [] ↔ ∀ c ∈ s, pyIsSpace c = true := by
  unfold pyStrip
  rw [List.reverse_eq_nil_iff, List.dropWhile_eq_nil_iff]
  constructor
  · intro h c hc
    have hc' : c ∈ List.takeWhile pyIsSpace s ++ List.dropWhile pyIsSpace s := by
      rw [List.takeWhile_append_dropWhile]; exact hc
    rcases List.mem_append.mp hc' with h1 | h2
    · exact List.mem_takeWhile_imp h1
    · exact h c (List.mem_reverse.mpr h2)
  · intro h c hc
    exact h c ((List.dropWhile_sublist pyIsSpace).subset (List.mem_reverse.mp hc))

theorem pyStrip_ne_nil (s : List Char) (c : Char) (hc : c ∈ s)
    (hcs : pyIsSpace c = false) : pyStrip s ≠ [] := by
  intro h
  have := (pyStrip_eq_nil_iff s).mp h c hc
  simp [hcs] at this

/-! ## Claim C2: classifier default and tie-break -/

/-- C2 counterexample: on text `"x"` every score is 0, yet `_detect_text_type`
returns `narrative`, not the claimed `descriptive` default. -/
theorem c2_counterexample :
    kwScore narrativeKeywords (cs "x") = 0 ∧
    kwScore argumentativeKeywords (cs "x") = 0 ∧
    kwScore descriptiveKeywords (cs "x") = 0 ∧
    detectTextType (cs "x") ≠ cs "descriptive" := by decide

/-- C2 amended: `_detect_text_type` breaks ties in the order narrative, then
argumentative, then descriptive; when all three scores are 0 this tie-break
makes it return `narrative` (not `descriptive`). -/
theorem c2_detect_type_tiebreak (text : List Char) :
    (kwScore narrativeKeywords text ≥ kwScore argumentativeKeywords text ∧
        kwScore narrativeKeywords text ≥ kwScore descriptiveKeywords text →
      detectTextType text = cs "narrative") ∧
    (kwScore narrativeKeywords text = 0 ∧
        kwScore argumentativeKeywords text = 0 ∧
        kwScore descriptiveKeywords text = 0 →
      detectTextType text = cs "narrative") ∧
    (¬(kwScore narrativeKeywords text ≥ kwScore argumentativeKeywords text ∧
        kwScore narrativeKeywords text ≥ kwScore descriptiveKeywords text) →
      kwScore argumentativeKeywords text ≥ kwScore descriptiveKeywords text →
      detectTextType text = cs "argumentative") ∧
    (¬(kwScore narrativeKeywords text ≥ kwScore argumentativeKeywords text ∧
        kwScore narrativeKeywords text ≥ kwScore descriptiveKeywords text) →
      kwScore argumentativeKeywords text < kwScore descriptiveKeywords text →
      detectTextType text = cs "descriptive") := by
  simp only [detectTextType, Bool.and_eq_true, decide_eq_true_eq]
  split_ifs with h1 h2
  · exact ⟨fun _ => rfl, fun _ => rfl, fun hn _ => absurd h1 hn,
      fun hn _ => absurd h1 hn⟩
  · exact ⟨fun h => absurd h h1, fun hz => absurd (by omega) h1,
      fun _ _ => rfl, fun _ hlt => by omega⟩
  · exact ⟨fun h => absurd h h1, fun hz => absurd (by omega) h1,
      fun _ hge => by omega, fun _ _ => rfl⟩

/-- Witness for `c2_detect_type_tiebreak` at the concrete all-zero text. -/
theorem c2_detect_type_tiebreak_witness :
    detectTextType (cs "x") = cs "narrative" :=
  (c2_detect_type_tiebreak (cs "x")).2.1 ⟨by decide, by decide, by decide⟩


/-! ## Evaluation lemmas for the segmenter steps -/

theorem pushStripped_of_ne (segs : List (List Char)) (cur : List Char)
    (h : pyStrip cur ≠ []) : pushStripped segs cur = segs ++ [pyStrip cur] := by
  unfold pushStripped
  rw [if_neg]
  simpa using h

theorem pushStripped_of_nil (segs : List (List Char)) (cur : List Char)
    (h : pyStrip cur = []) : pushStripped segs cur = segs := by
  unfold pushStripped
  rw [if_pos]
  simpa using h

theorem narrStep1_flush (segs : List (List Char)) (cur para : List Char)
    (h : cur.length + para.length > 1200) :
    narrStep1 segs cur para = (pushStripped segs cur, para) := by
  unfold narrStep1; rw [if_pos h]

theorem narrStep1_acc (segs : List (List Char)) (cur para : List Char)
    (h : ¬cur.length + para.length > 1200) :
    narrStep1 segs cur para = (segs, joinNN cur para) := by
  unfold narrStep1; rw [if_neg h]

theorem narrStep2_flush (st : List (List Char) × List Char) (para : List Char)
    (h1 : anyKw sceneMarkers para = true) (h2 : st.2.length > 500) :
    narrStep2 st para = (st.1 ++ [pyStrip st.2], []) := by
  unfold narrStep2
  rw [if_pos]
  simp only [Bool.and_eq_true, decide_eq_true_eq]
  exact ⟨h1, h2⟩

theorem narrStep2_keep (st : List (List Char) × List Char) (para : List Char)
    (h : ¬(anyKw sceneMarkers para = true ∧ st.2.length > 500)) :
    narrStep2 st para = st := by
  unfold narrStep2
  rw [if_neg]
  simp only [Bool.and_eq_true, decide_eq_true_eq]
  exact h

theorem argStep1_flush (segs : List (List Char)) (cur para : List Char)
    (h1 : anyKw argumentMarkers para = true) (h2 : cur.length > 600) :
    argStep1 segs cur para = (pushStripped segs cur, para) := by
  unfold argStep1
  rw [if_pos]
  simp only [Bool.and_eq_true, decide_eq_true_eq]
  exact ⟨h1, h2⟩

theorem argStep1_acc (segs : List (List Char)) (cur para : List Char)
    (h : ¬(anyKw argumentMarkers para = true ∧ cur.length > 600)) :
    argStep1 segs cur para = (segs, joinNN cur para) := by
  unfold argStep1
  rw [if_neg]
  simp only [Bool.and_eq_true, decide_eq_true_eq]
  exact h

theorem argStep2_flush (st : List (List Char) × List Char)
    (h : st.2.length > 1500) : argStep2 st = (st.1 ++ [pyStrip st.2], []) := by
  unfold argStep2; rw [if_pos h]

theorem argStep2_keep (st : List (List Char) × List Char)
    (h : ¬st.2.length > 1500) : argStep2 st = st := by
  unfold argStep2; rw [if_neg h]

theorem descStep1_flush (segs : List (List Char)) (cur para : List Char)
    (h1 : anyKw dimensionMarkers para = true) (h2 : cur.length > 600) :
    descStep1 segs cur para = (pushStripped segs cur, para) := by
  unfold descStep1
  rw [if_pos]
  simp only [Bool.and_eq_true, decide_eq_true_eq]
  exact ⟨h1, h2⟩

theorem descStep1_acc (segs : List (List Char)) (cur para : List Char)
    (h : ¬(anyKw dimensionMarkers para = true ∧ cur.length > 600)) :
    descStep1 segs cur para = (segs, joinNN cur para) := by
  unfold descStep1
  rw [if_neg]
  simp only [Bool.and_eq_true, decide_eq_true_eq]
  exact h

theorem descStep2_flush (st : List (List Char) × List Char)
    (h : st.2.length > 1200) : descStep2 st = (st.1 ++ [pyStrip st.2], []) := by
  unfold descStep2; rw [if_pos h]

theorem descStep2_keep (st : List (List Char) × List Char)
    (h : ¬st.2.length > 1200) : descStep2 st = st := by
  unfold descStep2; rw [if_neg h]

/-! ## Claim C9: which side of a flush the triggering paragraph lands on -/

/-- A 600-character marker-free accumulated chunk. -/
def c9cur : List Char := List.replicate 600 'x'

/-- A short paragraph containing the narrative scene marker 突然. -/
def c9para : List Char := cs "突然之间"

/-- C9 counterexample: in the narrative branch, a marker-triggered flush
(marker in the incoming paragraph, accumulated chunk of 600 > 500 characters)
emits a chunk that still CONTAINS the triggering paragraph, and the next
chunk starts empty rather than with that paragraph. -/
theorem c9_counterexample :
    anyKw sceneMarkers c9para = true ∧ c9cur.length > 500 ∧
    narrStep ([], c9cur) c9para =
      ([c9cur ++ '\n' :: '\n' :: c9para], []) ∧
    isSubstr c9para (c9cur ++ '\n' :: '\n' :: c9para) = true := by decide

/-- C9 amended: the emitted chunk excludes the triggering paragraph only for
the narrative length trigger and the argumentative/descriptive marker
triggers; the narrative marker trigger and the argumentative/descriptive
length triggers emit a chunk including the triggering paragraph and start
the next chunk empty. -/
theorem c9_flush_behaviour (segs : List (List Char)) (cur para : List Char) :
    (cur.length + para.length > 1200 →
      ¬(anyKw sceneMarkers para = true ∧ para.length > 500) →
      narrStep (segs, cur) para = (pushStripped segs cur, para)) ∧
    (cur.length + para.length ≤ 1200 → anyKw sceneMarkers para = true →
      (joinNN cur para).length > 500 →
      narrStep (segs, cur) para = (segs ++ [pyStrip (joinNN cur para)], [])) ∧
    (anyKw argumentMarkers para = true → cur.length > 600 →
      para.length ≤ 1500 →
      argStep (segs, cur) para = (pushStripped segs cur, para)) ∧
    (¬(anyKw argumentMarkers para = true ∧ cur.length > 600) →
      (joinNN cur para).length > 1500 →
      argStep (segs, cur) para = (segs ++ [pyStrip (joinNN cur para)], [])) ∧
    (anyKw dimensionMarkers para = true → cur.length > 600 →
      para.length ≤ 1200 →
      descStep (segs, cur) para = (pushStripped segs cur, para)) ∧
    (¬(anyKw dimensionMarkers para = true ∧ cur.length > 600) →
      (joinNN cur para).length > 1200 →
      descStep (segs, cur) para = (segs ++ [pyStrip (joinNN cur para)], [])) := by
  refine ⟨?_, ?_, ?_, ?_, ?_, ?_⟩
  · intro h1 h2
    show narrStep2 (narrStep1 segs cur para) para = _
    rw [narrStep1_flush segs cur para h1]
    exact narrStep2_keep _ para h2
  · intro h1 h2 h3
    show narrStep2 (narrStep1 segs cur para) para = _
    rw [narrStep1_acc segs cur para (by omega)]
    exact narrStep2_flush _ para h2 h3
  · intro h1 h2 h3
    show argStep2 (argStep1 segs cur para) = _
    rw [argStep1_flush segs cur para h1 h2]
    exact argStep2_keep _ (by simpa using by omega)
  · intro h1 h2
    show argStep2 (argStep1 segs cur para) = _
    rw [argStep1_acc segs cur para h1]
    exact argStep2_flush _ h2
  · intro h1 h2 h3
    show descStep2 (descStep1 segs cur para) = _
    rw [descStep1_flush segs cur para h1 h2]
    exact descStep2_keep _ (by simpa using by omega)
  · intro h1 h2
    show descStep2 (descStep1 segs cur para) = _
    rw [descStep1_acc segs cur para h1]
    exact descStep2_flush _ h2

/-- Witness for `c9_flush_behaviour`: a concrete argumentative marker flush
(chunk emitted without the paragraph) and a concrete descriptive length
flush (chunk emitted including the paragraph). -/
theorem c9_flush_behaviour_witness :
    argStep ([], List.replicate 601 'x') (cs "首先") =
      ([List.replicate 601 'x'], cs "首先") ∧
    descStep ([], List.replicate 1201 ' ') (cs "好") =
      ([pyStrip (joinNN (List.replicate 1201 ' ') (cs "好"))], []) := by
  constructor
  · have h := (c9_flush_behaviour [] (List.replicate 601 'x') (cs "首先")).2.2.1
      (by decide) (by decide) (by decide)
    rw [h]
    have hs : pyStrip (List.replicate 601 'x') = List.replicate 601 'x' := by
      decide
    rw [pushStripped_of_ne _ _ (by rw [hs]; decide), hs]
    simp
  · have hje : joinNN (List.replicate 1201 ' ') (cs "好") =
        List.replicate 1201 ' ' ++ '\n' :: '\n' :: cs "好" := by
      unfold joinNN
      rw [if_neg (by decide)]
    have hlen : (joinNN (List.replicate 1201 ' ') (cs "好")).length = 1204 := by
      rw [hje, List.length_append, List.length_replicate]
      decide
    have h := (c9_flush_behaviour []
      (List.replicate 1201 ' ') (cs "好")).2.2.2.2.2
      (by decide) (by omega)
    rw [h]
    simp

/-! ## Lemmas about `splitSubF` -/

/-- If the separator never occurs, the split is the whole string. -/
theorem splitSubF_no_occurrence (sep : List Char) :
    ∀ (f : Nat) (t : List Char), isSubstr sep t = false →
      splitSubF sep f t = [t] := by
  intro f
  induction f with
  | zero => intro t _; rfl
  | succ f ih =>
    intro t h
    cases t with
    | nil => rfl
    | cons c rest =>
      simp only [isSubstr, Bool.or_eq_false_iff] at h
      simp only [splitSubF, h.1, Bool.false_eq_true, if_false]
      rw [ih rest h.2]
      rfl

/-- Splitting `a ++ "\n\n" ++ b` when `a` contains no newline: the first
piece is `a` and the remainder is the split of `b` (with the fuel spent on
`a` and the separator accounted for). -/
theorem splitSubF_boundary :
    ∀ (a : List Char) (f : Nat) (b : List Char), '\n' ∉ a →
      a.length + 1 ≤ f →
      splitSubF (cs "\n\n") f (a ++ '\n' :: '\n' :: b) =
        a :: splitSubF (cs "\n\n") (f - (a.length + 1)) b := by
  intro a
  induction a with
  | nil =>
    intro f b _ hf
    cases f with
    | zero => omega
    | succ f =>
      simp only [List.nil_append, List.length_nil, Nat.zero_add,
        Nat.add_sub_cancel]
      have hp : (cs "\n\n").isPrefixOf ('\n' :: '\n' :: b) = true := by
        show (('\n' == '\n') && _) = true
        simp
      simp only [splitSubF, hp, if_true]
      rfl
  | cons c a' ih =>
    intro f b hmem hf
    cases f with
    | zero => simp at hf
    | succ f =>
      have hc : ¬('\n' == c) = true := by
        simp only [beq_iff_eq]
        intro h
        exact hmem (by rw [h]; exact List.mem_cons_self c a')
      have hpf : (cs "\n\n").isPrefixOf
          (c :: (a' ++ '\n' :: '\n' :: b)) = false := by
        show (('\n' == c) && _) = false
        simp [hc]
      simp only [List.cons_append, splitSubF, List.append_eq, hpf,
        Bool.false_eq_true, if_false]
      rw [ih f b (fun h => hmem (List.mem_cons_of_mem c h))
        (by simp only [List.length_cons] at hf; omega)]
      simp only [consHead, List.length_cons]
      congr 2
      omega

/-- If every character of `s` is non-whitespace, stripping is the identity. -/
theorem pyStrip_of_no_space (s : List Char)
    (h : ∀ c ∈ s, pyIsSpace c = false) : pyStrip s = s := by
  have hdw : ∀ (l : List Char), (∀ c ∈ l, pyIsSpace c = false) →
      l.dropWhile pyIsSpace = l := by
    intro l hl
    cases l with
    | nil => rfl
    | cons c rest =>
      rw [List.dropWhile_cons, hl c (List.mem_cons_self c rest)]
      simp
  rw [pyStrip, hdw s h, hdw s.reverse
    (fun c hc => h c (List.mem_reverse.mp hc)), List.reverse_reverse]

theorem joinNN_nil (p : List Char) : joinNN [] p = p := rfl

/-! ## Claim C1: total-safety of the segmenter -/

/-- A 699-character descriptive paragraph: the dimension marker 外观 followed
by 697 copies of a filler character. -/
def c1para (d : Char) : List Char := cs "外观" ++ List.replicate 697 d

/-- Seven marker-led paragraphs: primary segmentation yields 7 chunks, and
`segments[:6]` silently drops the seventh. -/
def c1exC : List Char :=
  c1para '1' ++ '\n' :: '\n' ::
    (c1para '2' ++ '\n' :: '\n' ::
      (c1para '3' ++ '\n' :: '\n' ::
        (c1para '4' ++ '\n' :: '\n' ::
          (c1para '5' ++ '\n' :: '\n' ::
            (c1para '6' ++ '\n' :: '\n' :: c1para '7')))))

/-- A 1201-character whitespace paragraph followed by a short one: the
unguarded descriptive overflow flush emits an empty chunk. -/
def c1exB : List Char := List.replicate 1201 ' ' ++ '\n' :: '\n' :: cs "abc"

theorem c1para_length (d : Char) : (c1para d).length = 699 := by
  have h2 : (cs "外观").length = 2 := rfl
  simp [c1para, h2]

theorem c1para_no_newline (d : Char) (hd : d ≠ '\n') : '\n' ∉ c1para d := by
  intro h
  rcases List.mem_append.mp h with h1 | h2
  · revert h1; decide
  · exact hd (List.eq_of_mem_replicate h2).symm

theorem c1para_marker (d : Char) :
    anyKw dimensionMarkers (c1para d) = true := rfl

theorem c1para_chars (d : Char) (hd : pyIsSpace d = false) :
    ∀ c ∈ c1para d, pyIsSpace c = false := by
  intro c hc
  rcases List.mem_append.mp hc with h1 | h2
  · exact (by decide : ∀ x ∈ cs "外观", pyIsSpace x = false) c h1
  · rw [List.eq_of_mem_replicate h2]; exact hd

theorem c1para_ne_nil (d : Char) : c1para d ≠ [] := by
  intro h
  have := congrArg List.length h
  rw [c1para_length d] at this
  simp at this

theorem c1para_strip (d : Char) (hd : pyIsSpace d = false) :
    pyStrip (c1para d) = c1para d :=
  pyStrip_of_no_space _ (c1para_chars d hd)

/-- One descriptive step on a marker-led 699-character paragraph with a
marker-led 699-character accumulated chunk: the accumulated chunk is
flushed (it is its own strip) and the paragraph starts the next chunk. -/
theorem c1_desc_step (segs : List (List Char)) (d e : Char)
    (hd : pyIsSpace d = false) :
    descStep (segs, c1para d) (c1para e) = (segs ++ [c1para d], c1para e) := by
  show descStep2 (descStep1 segs (c1para d) (c1para e)) = _
  rw [descStep1_flush segs _ _ (c1para_marker e)
    (by rw [c1para_length]; omega)]
  have h2 : ¬((pushStripped segs (c1para d), c1para e)).2.length > 1200 := by
    show ¬(c1para e).length > 1200
    rw [c1para_length]
    omega
  rw [descStep2_keep _ h2]
  rw [pushStripped_of_ne segs _
    (by rw [c1para_strip d hd]; exact c1para_ne_nil d)]
  rw [c1para_strip d hd]

/-- First descriptive step from the empty accumulator. -/
theorem c1_desc_step0 (p : List Char) (hlen : p.length ≤ 1200) :
    descStep ([], []) p = ([], p) := by
  show descStep2 (descStep1 [] [] p) = _
  rw [descStep1_acc [] [] p (by rintro ⟨-, h⟩; simp at h), joinNN_nil]
  exact descStep2_keep _ (by show ¬p.length > 1200; omega)

theorem c1exC_length : c1exC.length = 4905 := by
  simp [c1exC, c1para_length]

theorem c1exC_split : splitParas c1exC = [c1para '1', c1para '2', c1para '3',
    c1para '4', c1para '5', c1para '6', c1para '7'] := by
  have hnl : ∀ d : Char, d ≠ '\n' → '\n' ∉ c1para d := c1para_no_newline
  show splitSubF (cs "\n\n") c1exC.length c1exC = _
  rw [c1exC_length]
  show splitSubF (cs "\n\n") 4905
    (c1para '1' ++ '\n' :: '\n' ::
      (c1para '2' ++ '\n' :: '\n' ::
        (c1para '3' ++ '\n' :: '\n' ::
          (c1para '4' ++ '\n' :: '\n' ::
            (c1para '5' ++ '\n' :: '\n' ::
              (c1para '6' ++ '\n' :: '\n' :: c1para '7')))))) = _
  rw [splitSubF_boundary _ _ _ (hnl '1' (by decide))
    (by rw [c1para_length]; omega)]
  simp only [c1para_length]
  norm_num
  rw [splitSubF_boundary _ _ _ (hnl '2' (by decide))
    (by rw [c1para_length]; omega)]
  simp only [c1para_length]
  norm_num
  rw [splitSubF_boundary _ _ _ (hnl '3' (by decide))
    (by rw [c1para_length]; omega)]
  simp only [c1para_length]
  norm_num
  rw [splitSubF_boundary _ _ _ (hnl '4' (by decide))
    (by rw [c1para_length]; omega)]
  simp only [c1para_length]
  norm_num
  rw [splitSubF_boundary _ _ _ (hnl '5' (by decide))
    (by rw [c1para_length]; omega)]
  simp only [c1para_length]
  norm_num
  rw [splitSubF_boundary _ _ _ (hnl '6' (by decide))
    (by rw [c1para_length]; omega)]
  rw [splitSubF_no_occurrence _ _ _ (by decide)]

theorem c1exC_smart : smartSegmentText c1exC (cs "descriptive") =
    Except.ok [c1para '1', c1para '2', c1para '3', c1para '4', c1para '5',
      c1para '6'] := by
  have hfold : (splitParas c1exC).foldl descStep ([], []) =
      ([c1para '1', c1para '2', c1para '3', c1para '4', c1para '5',
        c1para '6'], c1para '7') := by
    rw [c1exC_split]
    simp only [List.foldl_cons, List.foldl_nil]
    rw [c1_desc_step0 _ (by rw [c1para_length]; omega)]
    rw [c1_desc_step [] '1' '2' (by decide)]
    rw [c1_desc_step _ '2' '3' (by decide)]
    rw [c1_desc_step _ '3' '4' (by decide)]
    rw [c1_desc_step _ '4' '5' (by decide)]
    rw [c1_desc_step _ '5' '6' (by decide)]
    rw [c1_desc_step _ '6' '7' (by decide)]
    rfl
  have hprim : primarySeg descStep c1exC = [c1para '1', c1para '2',
      c1para '3', c1para '4', c1para '5', c1para '6', c1para '7'] := by
    show pushStripped ((splitParas c1exC).foldl descStep ([], [])).1
      ((splitParas c1exC).foldl descStep ([], [])).2 = _
    rw [hfold]
    show pushStripped _ (c1para '7') = _
    rw [pushStripped_of_ne _ _
      (by rw [c1para_strip '7' (by decide)]; exact c1para_ne_nil '7')]
    rw [c1para_strip '7' (by decide)]
    rfl
  have hdisp : (if cs "descriptive" = cs "narrative" then
      primarySeg narrStep c1exC
    else if cs "descriptive" = cs "argumentative" then primarySeg argStep c1exC
    else primarySeg descStep c1exC) = [c1para '1', c1para '2', c1para '3',
      c1para '4', c1para '5', c1para '6', c1para '7'] := by
    rw [if_neg (by decide), if_neg (by decide)]
    exact hprim
  simp only [smartSegmentText]
  rw [hdisp]
  rw [if_neg (by decide)]
  rfl

theorem c1exB_length : c1exB.length = 1206 := by
  have h3 : ('\n' :: '\n' :: cs "abc").length = 5 := rfl
  simp [c1exB, h3]

theorem c1exB_smart : smartSegmentText c1exB (cs "descriptive") =
    Except.ok [[], cs "abc"] := by
  have hsplit : splitParas c1exB = [List.replicate 1201 ' ', cs "abc"] := by
    show splitSubF (cs "\n\n") c1exB.length c1exB = _
    rw [c1exB_length]
    show splitSubF (cs "\n\n") 1206
      (List.replicate 1201 ' ' ++ '\n' :: '\n' :: cs "abc") = _
    rw [splitSubF_boundary _ _ _
      (fun h => absurd (List.eq_of_mem_replicate h) (by decide))
      (by simp)]
    rw [splitSubF_no_occurrence _ _ _ (by decide)]
  have hs1 : descStep ([], []) (List.replicate 1201 ' ') = ([[]], []) := by
    show descStep2 (descStep1 [] [] _) = _
    rw [descStep1_acc [] [] _ (by rintro ⟨-, h⟩; simp at h), joinNN_nil]
    have hflush : (([] : List (List Char)),
        List.replicate 1201 ' ').2.length > 1200 := by
      show (List.replicate 1201 ' ').length > 1200
      simp
    rw [descStep2_flush _ hflush]
    have hstrip : pyStrip (List.replicate 1201 ' ') = [] := by
      apply (pyStrip_eq_nil_iff _).mpr
      intro c hc
      rw [List.eq_of_mem_replicate hc]
      decide
    rw [hstrip]
    rfl
  have hs2 : descStep ([[]], []) (cs "abc") = ([[]], cs "abc") := by
    show descStep2 (descStep1 [[]] [] _) = _
    rw [descStep1_acc _ _ _ (by rintro ⟨-, h⟩; simp at h), joinNN_nil]
    have hk : ¬(([[]] : List (List Char)), cs "abc").2.length > 1200 := by
      show ¬(cs "abc").length > 1200
      decide
    exact descStep2_keep _ hk
  have hprim : primarySeg descStep c1exB = [[], cs "abc"] := by
    show pushStripped ((splitParas c1exB).foldl descStep ([], [])).1
      ((splitParas c1exB).foldl descStep ([], [])).2 = _
    rw [hsplit]
    simp only [List.foldl_cons, List.foldl_nil]
    rw [hs1, hs2]
    show pushStripped [[]] (cs "abc") = _
    rw [pushStripped_of_ne _ _ (by decide)]
    have : pyStrip (cs "abc") = cs "abc" := by decide
    rw [this]
    rfl
  have hdisp : (if cs "descriptive" = cs "narrative" then
      primarySeg narrStep c1exB
    else if cs "descriptive" = cs "argumentative" then primarySeg argStep c1exB
    else primarySeg descStep c1exB) = [[], cs "abc"] := by
    rw [if_neg (by decide), if_neg (by decide)]
    exact hprim
  simp only [smartSegmentText]
  rw [hdisp]
  rw [if_neg (by decide)]
  rfl

/-- C1 counterexample, three ways the claim fails on the code:
(a) input `"a"` (length 1, within the claimed 1..10000 range) makes the
length fallback raise `ValueError` from `range(0, 1, 0)`;
(b) on `c1exB` (1206 characters) the descriptive overflow flush appends an
unguarded `current_segment.strip()` and a returned chunk is empty;
(c) on `c1exC` (4905 characters) primary segmentation yields 7 chunks and
`segments[:6]` drops the seventh, losing every occurrence of the
non-whitespace character 7. -/
theorem c1_counterexample :
    smartSegmentText (cs "a") (cs "narrative") =
      Except.error "range() arg 3 must not be zero" ∧
    (cs "a").length = 1 ∧
    smartSegmentText c1exB (cs "descriptive") = Except.ok [[], cs "abc"] ∧
    c1exB.length = 1206 ∧
    smartSegmentText c1exC (cs "descriptive") =
      Except.ok [c1para '1', c1para '2', c1para '3', c1para '4', c1para '5',
        c1para '6'] ∧
    c1exC.length = 4905 ∧
    c1exC.contains '7' = true ∧
    ([c1para '1', c1para '2', c1para '3', c1para '4', c1para '5',
        c1para '6'].flatten).contains '7' = false :=
  ⟨by rfl, rfl, c1exB_smart, c1exB_length, c1exC_smart, c1exC_length,
    by decide, by decide⟩

/-- C1 amended: for every text of 3 to 10000 characters containing at least
one non-whitespace character, and every text type, `_smart_segment_text`
returns normally with between 1 and 6 chunks.  (Texts of length 1-2 raise
`ValueError`; chunks can be empty after trimming and characters can be
dropped by the `[:6]` truncation, as the counterexample shows.) -/
theorem c1_segmenter_safety (text ttype : List Char)
    (h3 : 3 ≤ text.length) (h10 : text.length ≤ 10000)
    (hnw : ∃ c ∈ text, pyIsSpace c = false) :
    ∃ segs, smartSegmentText text ttype = Except.ok segs ∧
      1 ≤ segs.length ∧ segs.length ≤ 6 := by
  obtain ⟨c, hc, hcs⟩ := hnw
  simp only [smartSegmentText]
  set prim := (if ttype = cs "narrative" then primarySeg narrStep text
    else if ttype = cs "argumentative" then primarySeg argStep text
    else primarySeg descStep text) with hprim
  by_cases h : (prim.length < 2 || prim.length > 8) = true
  · rw [if_pos h]
    simp only [fallbackSeg]
    have htpos : 0 < min 5 (max 3 (text.length / 800)) := by omega
    have hLne : ¬(text.length / min 5 (max 3 (text.length / 800)) = 0) := by
      intro h0
      have := (Nat.div_eq_zero_iff htpos).mp h0
      omega
    rw [if_neg hLne]
    simp only [Except.map]
    refine ⟨_, rfl, ?_, ?_⟩
    · have hflat := slicesF_flatten
        (text.length / min 5 (max 3 (text.length / 800)) - 1) text.length text
      have hcmem : c ∈ (slicesF
          (text.length / min 5 (max 3 (text.length / 800)) - 1)
          text.length text).flatten := by
        rw [hflat]; exact hc
      obtain ⟨s0, hs0mem, hs0c⟩ := List.mem_flatten.mp hcmem
      have hmemf : pyStrip s0 ∈ ((slices
          (text.length / min 5 (max 3 (text.length / 800)) - 1) text).map
            pyStrip).filter (fun s => !s.isEmpty) := by
        rw [List.mem_filter]
        refine ⟨List.mem_map_of_mem pyStrip hs0mem, ?_⟩
        simpa using pyStrip_ne_nil s0 c hs0c hcs
      have hpos : 0 < (((slices
          (text.length / min 5 (max 3 (text.length / 800)) - 1) text).map
            pyStrip).filter (fun s => !s.isEmpty)).length :=
        List.length_pos.mpr (List.ne_nil_of_mem hmemf)
      rw [List.length_take]
      omega
    · rw [List.length_take]
      omega
  · rw [if_neg h]
    simp only [Bool.or_eq_true, decide_eq_true_eq, not_or] at h
    refine ⟨_, rfl, ?_, ?_⟩ <;> rw [List.length_take] <;> omega

/-- Witness for `c1_segmenter_safety` at a concrete three-character text. -/
theorem c1_segmenter_safety_witness :
    ∃ segs, smartSegmentText (cs "好的吧") (cs "narrative") = Except.ok segs ∧
      1 ≤ segs.length ∧ segs.length ≤ 6 :=
  c1_segmenter_safety (cs "好的吧") (cs "narrative") (by decide) (by decide)
    ⟨'好', by decide, by decide⟩

/-! ## Claim C8: a single 50-character paragraph -/

/-- C8 counterexample: a 50-character single narrative paragraph with no
markers does NOT come back as one chunk equal to the trimmed input — the
sanity fallback rejects the single primary chunk and returns the four
16-character slices (`50 // min(5, max(3, 50 // 800)) = 16`). -/
theorem c8_counterexample :
    (List.replicate 50 'x').length = 50 ∧
    isSubstr (cs "\n\n") (List.replicate 50 'x') = false ∧
    anyKw sceneMarkers (List.replicate 50 'x') = false ∧
    smartSegmentText (List.replicate 50 'x') (cs "narrative") =
      Except.ok [List.replicate 16 'x', List.replicate 16 'x',
        List.replicate 16 'x', List.replicate 2 'x'] :=
  ⟨by decide, by decide, by decide, by rfl⟩

/-- C8 amended: on a 50-character single paragraph (no blank line) with at
least one non-whitespace character, the narrative segmenter always enters
the equal-slice fallback and returns the non-empty stripped 16-character
slices — between 1 and 4 chunks, not one chunk equal to the trimmed
input. -/
theorem c8_fifty_char_fallback (t : List Char) (hlen : t.length = 50)
    (hnn : isSubstr (cs "\n\n") t = false)
    (hmk : anyKw sceneMarkers t = false)
    (hnw : ∃ c ∈ t, pyIsSpace c = false) :
    smartSegmentText t (cs "narrative") =
      Except.ok (((slices 15 t).map pyStrip).filter (fun s => !s.isEmpty)) ∧
    1 ≤ (((slices 15 t).map pyStrip).filter (fun s => !s.isEmpty)).length ∧
    (((slices 15 t).map pyStrip).filter (fun s => !s.isEmpty)).length ≤ 4 := by
  obtain ⟨c, hc, hcs⟩ := hnw
  have hsplit : splitParas t = [t] := splitSubF_no_occurrence _ _ _ hnn
  have hstep : narrStep ([], []) t = ([], t) := by
    show narrStep2 (narrStep1 [] [] t) t = _
    rw [narrStep1_acc [] [] t
      (by simp only [List.length_nil, hlen]; omega), joinNN_nil]
    apply narrStep2_keep
    intro hand
    have h2 : t.length > 500 := hand.2
    omega
  have hprim : primarySeg narrStep t = [pyStrip t] := by
    show pushStripped ((splitParas t).foldl narrStep ([], [])).1
      ((splitParas t).foldl narrStep ([], [])).2 = _
    rw [hsplit]
    simp only [List.foldl_cons, List.foldl_nil]
    rw [hstep]
    show pushStripped [] t = _
    rw [pushStripped_of_ne [] t (pyStrip_ne_nil t c hc hcs)]
    rfl
  have hslices : (slices 15 t).length = 4 := by
    show (slicesF 15 t.length t).length = 4
    rw [slicesF_length 15 t.length t (le_refl _), hlen]
  have hfle : (((slices 15 t).map pyStrip).filter
      (fun s => !s.isEmpty)).length ≤ 4 := by
    calc (((slices 15 t).map pyStrip).filter (fun s => !s.isEmpty)).length
        ≤ ((slices 15 t).map pyStrip).length := List.length_filter_le _ _
      _ = (slices 15 t).length := List.length_map _ _
      _ = 4 := hslices
  have hfge : 1 ≤ (((slices 15 t).map pyStrip).filter
      (fun s => !s.isEmpty)).length := by
    have hflat := slicesF_flatten 15 t.length t
    have hcmem : c ∈ (slicesF 15 t.length t).flatten := by
      rw [hflat]; exact hc
    obtain ⟨s0, hs0mem, hs0c⟩ := List.mem_flatten.mp hcmem
    have hmemf : pyStrip s0 ∈ ((slices 15 t).map pyStrip).filter
        (fun s => !s.isEmpty) := by
      rw [List.mem_filter]
      refine ⟨List.mem_map_of_mem pyStrip hs0mem, ?_⟩
      simpa using pyStrip_ne_nil s0 c hs0c hcs
    exact List.length_pos.mpr (List.ne_nil_of_mem hmemf)
  refine ⟨?_, hfge, hfle⟩
  have hunf : smartSegmentText t (cs "narrative") =
      (if ((primarySeg narrStep t).length < 2 ||
          (primarySeg narrStep t).length > 8) then
        (fallbackSeg t).map (fun l => l.take 6)
      else Except.ok ((primarySeg narrStep t).take 6)) := rfl
  rw [hunf, hprim]
  rw [if_pos (by simp)]
  simp only [fallbackSeg, hlen]
  norm_num
  simp only [Except.map]
  rw [List.take_of_length_le (by omega)]

/-- Witness for `c8_fifty_char_fallback` on a concrete 50-character
paragraph. -/
theorem c8_fifty_char_fallback_witness :
    smartSegmentText (List.replicate 50 'x') (cs "narrative") =
      Except.ok (((slices 15 (List.replicate 50 'x')).map pyStrip).filter
        (fun s => !s.isEmpty)) ∧
    1 ≤ (((slices 15 (List.replicate 50 'x')).map pyStrip).filter
        (fun s => !s.isEmpty)).length ∧
    (((slices 15 (List.replicate 50 'x')).map pyStrip).filter
        (fun s => !s.isEmpty)).length ≤ 4 :=
  c8_fifty_char_fallback (List.replicate 50 'x') (by decide) (by decide)
    (by decide) ⟨'x', by decide, by decide⟩

/-! ## ImageMatcher (`_generate_demo_image` and helpers, main.py 199-890) -/

/-- One theme of the `enhanced_theme_mapping` table. -/
structure ThemeData where
  keywords : List (List Char)
  semantic : List (List Char)
  emotions : List (List Char)

/-- `enhanced_theme_mapping`, in source (insertion) order. -/
def enhancedThemeMapping : List (List Char × ThemeData) :=
  [
   (cs "nature_mountain",
    { keywords := [cs "山", cs "山峰", cs "山脉", cs "登山", cs "远足", cs "自然风光", cs "户外", cs "徒步", cs "山景", cs "高山", cs "雪山", cs "山顶", cs "峰峦", cs "巍峨", cs "壮丽"],
      semantic := [cs "雄伟", cs "壮观", cs "高耸", cs "险峻", cs "云雾缭绕", cs "山川", cs "峻岭", cs "巅峰", cs "登高", cs "俯瞰"],
      emotions := [cs "震撼", cs "敬畏", cs "征服", cs "挑战", cs "坚毅"] }),
   (cs "nature_ocean",
    { keywords := [cs "海", cs "海洋", cs "海边", cs "海滩", cs "波浪", cs "海水", cs "沙滩", cs "海岸", cs "蓝色", cs "水面", cs "大海", cs "海浪", cs "潮汐", cs "海风"],
      semantic := [cs "辽阔", cs "深邃", cs "波涛", cs "浪花", cs "海天一色", cs "碧波", cs "汹涌", cs "宁静", cs "海鸥", cs "帆船"],
      emotions := [cs "自由", cs "宁静", cs "浪漫", cs "思考", cs "放松"] }),
   (cs "nature_forest",
    { keywords := [cs "森林", cs "树林", cs "绿色", cs "植物", cs "叶子", cs "树木", cs "自然", cs "绿意", cs "清新", cs "大树", cs "古树", cs "林间", cs "丛林", cs "绿荫"],
      semantic := [cs "茂密", cs "幽静", cs "生机", cs "翠绿", cs "阳光透过", cs "鸟语花香", cs "小径", cs "清香", cs "氧气", cs "生态"],
      emotions := [cs "平静", cs "治愈", cs "清新", cs "生机", cs "和谐"] }),
   (cs "nature_flower",
    { keywords := [cs "花", cs "花朵", cs "樱花", cs "梅花", cs "玫瑰", cs "花园", cs "花海", cs "盛开", cs "花瓣", cs "花蕊", cs "鲜花", cs "花束", cs "绽放", cs "芬芳"],
      semantic := [cs "娇艳", cs "芬芳", cs "绚烂", cs "花香", cs "蜜蜂", cs "蝴蝶", cs "花期", cs "花语", cs "美丽", cs "色彩"],
      emotions := [cs "美好", cs "浪漫", cs "温柔", cs "纯真", cs "爱情"] }),
   (cs "nature_sky",
    { keywords := [cs "天空", cs "云", cs "蓝天", cs "白云", cs "晴天", cs "日出", cs "日落", cs "夕阳", cs "朝霞", cs "晚霞", cs "彩霞", cs "阳光", cs "云朵", cs "天际"],
      semantic := [cs "广阔", cs "无垠", cs "变幻", cs "光影", cs "色彩", cs "云卷云舒", cs "霞光", cs "金辉", cs "蔚蓝", cs "纯净"],
      emotions := [cs "希望", cs "自由", cs "梦想", cs "开阔", cs "向往"] }),
   (cs "city_modern",
    { keywords := [cs "城市", cs "都市", cs "现代", cs "高楼", cs "建筑", cs "街道", cs "都市风光", cs "摩天大楼", cs "现代建筑", cs "玻璃幕墙", cs "钢筋混凝土"],
      semantic := [cs "繁华", cs "现代化", cs "科技感", cs "都市节奏", cs "商业区", cs "CBD", cs "天际线", cs "灯火辉煌", cs "车水马龙"],
      emotions := [cs "活力", cs "忙碌", cs "现代", cs "进步", cs "竞争"] }),
   (cs "city_street",
    { keywords := [cs "街道", cs "马路", cs "路", cs "街景", cs "城市街道", cs "行人", cs "交通", cs "繁华", cs "十字路口", cs "车流", cs "人流", cs "商店"],
      semantic := [cs "熙熙攘攘", cs "川流不息", cs "红绿灯", cs "斑马线", cs "店铺", cs "招牌", cs "街头", cs "都市生活"],
      emotions := [cs "热闹", cs "生活", cs "忙碌", cs "多彩", cs "真实"] }),
   (cs "city_cafe",
    { keywords := [cs "咖啡厅", cs "咖啡", cs "咖啡馆", cs "温暖", cs "惬意", cs "休闲", cs "下午茶", cs "咖啡店", cs "温馨", cs "拿铁", cs "卡布奇诺"],
      semantic := [cs "慢生活", cs "文艺", cs "小资", cs "聊天", cs "阅读", cs "音乐", cs "香气", cs "舒适", cs "放松"],
      emotions := [cs "惬意", cs "温馨", cs "放松", cs "享受", cs "文艺"] }),
   (cs "city_night",
    { keywords := [cs "夜晚", cs "夜景", cs "灯光", cs "霓虹", cs "夜色", cs "城市夜景", cs "璀璨", cs "霓虹灯", cs "灯火通明", cs "夜生活"],
      semantic := [cs "绚烂", cs "迷人", cs "光影", cs "夜市", cs "酒吧", cs "夜店", cs "星光", cs "月光", cs "灯红酒绿"],
      emotions := [cs "浪漫", cs "神秘", cs "活力", cs "魅力", cs "梦幻"] }),
   (cs "people_portrait",
    { keywords := [cs "人物", cs "肖像", cs "面部", cs "表情", cs "眼神", cs "人像", cs "特写", cs "面容", cs "神情", cs "五官", cs "轮廓"],
      semantic := [cs "深邃", cs "专注", cs "凝视", cs "微表情", cs "个性", cs "气质", cs "魅力", cs "特征", cs "神韵"],
      emotions := [cs "专注", cs "深沉", cs "个性", cs "魅力", cs "真实"] }),
   (cs "people_happy",
    { keywords := [cs "快乐", cs "开心", cs "笑容", cs "微笑", cs "欢乐", cs "愉快", cs "高兴", cs "兴奋", cs "喜悦", cs "幸福", cs "灿烂", cs "甜美"],
      semantic := [cs "阳光", cs "灿烂", cs "感染力", cs "正能量", cs "活力", cs "青春", cs "纯真", cs "美好"],
      emotions := [cs "快乐", cs "幸福", cs "满足", cs "阳光", cs "积极"] }),
   (cs "people_sad",
    { keywords := [cs "伤心", cs "难过", cs "悲伤", cs "忧郁", cs "沮丧", cs "失落", cs "眼泪", cs "哭泣", cs "忧伤", cs "孤独", cs "思念"],
      semantic := [cs "忧郁", cs "深沉", cs "思考", cs "回忆", cs "怀念", cs "感伤", cs "眼泪", cs "孤单"],
      emotions := [cs "悲伤", cs "忧郁", cs "思念", cs "孤独", cs "感伤"] }),
   (cs "people_love",
    { keywords := [cs "爱情", cs "浪漫", cs "情侣", cs "恋人", cs "拥抱", cs "亲吻", cs "甜蜜", cs "温馨", cs "爱", cs "浪漫", cs "约会", cs "牵手"],
      semantic := [cs "甜蜜", cs "温馨", cs "浪漫", cs "幸福", cs "相伴", cs "依偎", cs "深情", cs "眷恋"],
      emotions := [cs "爱情", cs "浪漫", cs "甜蜜", cs "幸福", cs "温暖"] }),
   (cs "people_friendship",
    { keywords := [cs "友谊", cs "朋友", cs "友情", cs "陪伴", cs "一起", cs "合影", cs "友好", cs "聚会", cs "交谈", cs "分享", cs "支持"],
      semantic := [cs "真诚", cs "陪伴", cs "支持", cs "分享", cs "快乐", cs "信任", cs "理解", cs "珍贵"],
      emotions := [cs "友谊", cs "温暖", cs "支持", cs "快乐", cs "珍贵"] }),
   (cs "people_family",
    { keywords := [cs "家庭", cs "亲情", cs "父母", cs "孩子", cs "家人", cs "温馨", cs "团聚", cs "家", cs "亲人", cs "关爱", cs "呵护"],
      semantic := [cs "温馨", cs "和睦", cs "关爱", cs "呵护", cs "传承", cs "责任", cs "依靠", cs "港湾"],
      emotions := [cs "温馨", cs "关爱", cs "安全", cs "归属", cs "责任"] }),
   (cs "life_home",
    { keywords := [cs "家", cs "家庭", cs "房间", cs "客厅", cs "卧室", cs "温馨", cs "居家", cs "生活", cs "家居", cs "装饰", cs "舒适"],
      semantic := [cs "温馨", cs "舒适", cs "私密", cs "放松", cs "归属", cs "安全", cs "个人空间", cs "生活气息"],
      emotions := [cs "温馨", cs "舒适", cs "安全", cs "放松", cs "归属"] }),
   (cs "life_work",
    { keywords := [cs "工作", cs "办公", cs "电脑", cs "会议", cs "商务", cs "职场", cs "学习", cs "专注", cs "办公室", cs "效率", cs "专业"],
      semantic := [cs "专业", cs "效率", cs "专注", cs "认真", cs "责任", cs "成就", cs "挑战", cs "团队"],
      emotions := [cs "专注", cs "认真", cs "责任", cs "成就", cs "挑战"] }),
   (cs "life_travel",
    { keywords := [cs "旅行", cs "旅游", cs "度假", cs "行李", cs "机场", cs "酒店", cs "风景", cs "探索", cs "旅途", cs "冒险", cs "发现"],
      semantic := [cs "自由", cs "探索", cs "发现", cs "体验", cs "冒险", cs "放松", cs "开阔", cs "记忆"],
      emotions := [cs "自由", cs "兴奋", cs "探索", cs "放松", cs "开阔"] }),
   (cs "life_food",
    { keywords := [cs "美食", cs "食物", cs "餐厅", cs "烹饪", cs "料理", cs "美味", cs "餐桌", cs "品尝", cs "菜肴", cs "香味", cs "色香味"],
      semantic := [cs "美味", cs "香气", cs "色彩", cs "精致", cs "享受", cs "满足", cs "文化", cs "分享"],
      emotions := [cs "享受", cs "满足", cs "幸福", cs "分享", cs "文化"] }),
   (cs "life_reading",
    { keywords := [cs "读书", cs "阅读", cs "书本", cs "学习", cs "知识", cs "图书", cs "文字", cs "思考", cs "书籍", cs "智慧", cs "文学"],
      semantic := [cs "安静", cs "专注", cs "思考", cs "智慧", cs "知识", cs "成长", cs "内涵", cs "修养"],
      emotions := [cs "宁静", cs "专注", cs "智慧", cs "成长", cs "充实"] }),
   (cs "abstract_dream",
    { keywords := [cs "梦想", cs "希望", cs "未来", cs "理想", cs "憧憬", cs "目标", cs "追求", cs "愿望", cs "梦", cs "志向", cs "抱负"],
      semantic := [cs "远大", cs "美好", cs "追求", cs "奋斗", cs "坚持", cs "信念", cs "光明", cs "可能"],
      emotions := [cs "希望", cs "憧憬", cs "激励", cs "坚定", cs "美好"] }),
   (cs "abstract_memory",
    { keywords := [cs "回忆", cs "记忆", cs "过去", cs "怀念", cs "思念", cs "往事", cs "童年", cs "青春", cs "时光", cs "岁月", cs "怀旧"],
      semantic := [cs "珍贵", cs "美好", cs "怀念", cs "感慨", cs "时光", cs "青春", cs "纯真", cs "难忘"],
      emotions := [cs "怀念", cs "感慨", cs "珍贵", cs "温暖", cs "感伤"] }),
   (cs "abstract_growth",
    { keywords := [cs "成长", cs "进步", cs "发展", cs "提升", cs "改变", cs "蜕变", cs "突破", cs "进化", cs "成熟", cs "学习", cs "进取"],
      semantic := [cs "进步", cs "提升", cs "突破", cs "坚持", cs "努力", cs "收获", cs "成就", cs "蜕变"],
      emotions := [cs "成就", cs "满足", cs "自豪", cs "坚定", cs "积极"] }),
   (cs "abstract_peace",
    { keywords := [cs "平静", cs "安静", cs "宁静", cs "祥和", cs "放松", cs "冥想", cs "内心", cs "禅意", cs "宁静", cs "静谧", cs "安详"],
      semantic := [cs "宁静", cs "平和", cs "安详", cs "内心", cs "冥想", cs "禅意", cs "超脱", cs "纯净"],
      emotions := [cs "平静", cs "安详", cs "放松", cs "纯净", cs "超脱"] }),
   (cs "abstract_emotion",
    { keywords := [cs "情感", cs "温暖", cs "感动", cs "关爱", cs "温情", cs "心情", cs "感受", cs "情绪", cs "内心", cs "心灵", cs "感触"],
      semantic := [cs "深刻", cs "真挚", cs "温暖", cs "感人", cs "触动", cs "共鸣", cs "理解", cs "包容"],
      emotions := [cs "感动", cs "温暖", cs "真挚", cs "深刻", cs "共鸣"] }),
   (cs "season_spring",
    { keywords := [cs "春天", cs "春季", cs "新绿", cs "生机", cs "复苏", cs "嫩芽", cs "春意", cs "温暖", cs "春日", cs "花开", cs "万物复苏"],
      semantic := [cs "生机", cs "希望", cs "新生", cs "活力", cs "温暖", cs "绿意", cs "花开", cs "复苏"],
      emotions := [cs "希望", cs "活力", cs "新生", cs "温暖", cs "美好"] }),
   (cs "season_summer",
    { keywords := [cs "夏天", cs "夏季", cs "炎热", cs "阳光", cs "海滩", cs "游泳", cs "清凉", cs "活力", cs "夏日", cs "热情", cs "火热"],
      semantic := [cs "热情", cs "活力", cs "阳光", cs "热烈", cs "充满活力", cs "青春", cs "激情", cs "奔放"],
      emotions := [cs "热情", cs "活力", cs "激情", cs "自由", cs "青春"] }),
   (cs "season_autumn",
    { keywords := [cs "秋天", cs "秋季", cs "落叶", cs "金黄", cs "收获", cs "枫叶", cs "萧瑟", cs "成熟", cs "金秋", cs "丰收", cs "凉爽"],
      semantic := [cs "成熟", cs "收获", cs "丰富", cs "沉淀", cs "金黄", cs "美丽", cs "诗意", cs "感怀"],
      emotions := [cs "成熟", cs "收获", cs "感怀", cs "诗意", cs "沉静"] }),
   (cs "season_winter",
    { keywords := [cs "冬天", cs "冬季", cs "雪", cs "寒冷", cs "雪花", cs "冰", cs "纯洁", cs "静谧", cs "雪景", cs "银装素裹", cs "洁白"],
      semantic := [cs "纯洁", cs "静谧", cs "洁白", cs "宁静", cs "素雅", cs "清冷", cs "美丽", cs "神圣"],
      emotions := [cs "纯洁", cs "宁静", cs "清冷", cs "神圣", cs "美丽"] }),
   (cs "activity_sport",
    { keywords := [cs "运动", cs "健身", cs "跑步", cs "瑜伽", cs "游泳", cs "锻炼", cs "活力", cs "健康", cs "体育", cs "汗水", cs "坚持"],
      semantic := [cs "活力", cs "健康", cs "坚持", cs "挑战", cs "突破", cs "汗水", cs "努力", cs "强健"],
      emotions := [cs "活力", cs "健康", cs "坚持", cs "挑战", cs "成就"] }),
   (cs "activity_art",
    { keywords := [cs "艺术", cs "绘画", cs "音乐", cs "创作", cs "设计", cs "美术", cs "文艺", cs "创意", cs "艺术", cs "灵感", cs "美感"],
      semantic := [cs "创意", cs "美感", cs "灵感", cs "表达", cs "创造", cs "艺术", cs "文化", cs "审美"],
      emotions := [cs "创意", cs "美感", cs "表达", cs "文艺", cs "灵感"] }),
   (cs "activity_relax",
    { keywords := [cs "休息", cs "放松", cs "躺着", cs "睡觉", cs "安静", cs "舒适", cs "惬意", cs "慵懒", cs "休闲", cs "悠闲", cs "享受"],
      semantic := [cs "舒适", cs "惬意", cs "悠闲", cs "放松", cs "享受", cs "慵懒", cs "安逸", cs "自在"],
      emotions := [cs "放松", cs "舒适", cs "惬意", cs "悠闲", cs "享受"] }),
   (cs "animal_cat",
    { keywords := [cs "猫", cs "小猫", cs "猫咪", cs "喵星人", cs "可爱猫", cs "宠物猫", cs "猫咪", cs "喵喵"],
      semantic := [cs "可爱", cs "温顺", cs "优雅", cs "独立", cs "神秘", cs "灵动", cs "治愈", cs "陪伴"],
      emotions := [cs "可爱", cs "治愈", cs "温顺", cs "陪伴", cs "温暖"] }),
   (cs "animal_dog",
    { keywords := [cs "狗", cs "小狗", cs "狗狗", cs "宠物狗", cs "忠诚", cs "汪星人", cs "犬", cs "小犬"],
      semantic := [cs "忠诚", cs "友好", cs "活泼", cs "陪伴", cs "守护", cs "可爱", cs "温暖", cs "信任"],
      emotions := [cs "忠诚", cs "友好", cs "陪伴", cs "温暖", cs "信任"] }),
   (cs "animal_bird",
    { keywords := [cs "鸟", cs "小鸟", cs "飞鸟", cs "鸟儿", cs "翅膀", cs "飞翔", cs "鸟类", cs "羽毛"],
      semantic := [cs "自由", cs "轻盈", cs "优雅", cs "飞翔", cs "歌声", cs "美丽", cs "灵动", cs "天空"],
      emotions := [cs "自由", cs "轻盈", cs "优雅", cs "美丽", cs "灵动"] }),
   (cs "animal_wild",
    { keywords := [cs "野生动物", cs "兔子", cs "松鼠", cs "蝴蝶", cs "昆虫", cs "动物", cs "野生", cs "自然"],
      semantic := [cs "自然", cs "野性", cs "生态", cs "和谐", cs "美丽", cs "神奇", cs "多样", cs "生命"],
      emotions := [cs "自然", cs "和谐", cs "美丽", cs "神奇", cs "生命"] })
  ]

/-- `xiaohongshu_images`: the 36 five-image pools, in source order. -/
def xiaohongshuImages : List (List Char × List (List Char)) :=
  [
   (cs "nature_mountain",
    [cs "https://images.unsplash.com/photo-1506905925346-21bda4d32df4?w=400&h=600&fit=crop",
     cs "https://images.unsplash.com/photo-1464822759844-d150baec0494?w=400&h=600&fit=crop",
     cs "https://images.unsplash.com/photo-1519904981063-b0cf448d479e?w=400&h=600&fit=crop",
     cs "https://images.unsplash.com/photo-1551632811-561732d1e306?w=400&h=600&fit=crop",
     cs "https://images.unsplash.com/photo-1506197603052-3cc9c3a201bd?w=400&h=600&fit=crop"]),
   (cs "nature_ocean",
    [cs "https://images.unsplash.com/photo-1505142468610-359e7d316be0?w=400&h=600&fit=crop",
     cs "https://images.unsplash.com/photo-1544551763-46a013bb70d5?w=400&h=600&fit=crop",
     cs "https://images.unsplash.com/photo-1507525428034-b723cf961d3e?w=400&h=600&fit=crop",
     cs "https://images.unsplash.com/photo-1518837695005-2083093ee35b?w=400&h=600&fit=crop",
     cs "https://images.unsplash.com/photo-1439066615861-d1af74d74000?w=400&h=600&fit=crop"]),
   (cs "nature_forest",
    [cs "https://images.unsplash.com/photo-1441974231531-c6227db76b6e?w=400&h=600&fit=crop",
     cs "https://images.unsplash.com/photo-1448375240586-882707db888b?w=400&h=600&fit=crop",
     cs "https://images.unsplash.com/photo-1518837695005-2083093ee35b?w=400&h=600&fit=crop",
     cs "https://images.unsplash.com/photo-1506905925346-21bda4d32df4?w=400&h=600&fit=crop",
     cs "https://images.unsplash.com/photo-1511593358241-7eea1f3c84e5?w=400&h=600&fit=crop"]),
   (cs "nature_flower",
    [cs "https://images.unsplash.com/photo-1490750967868-88aa4486c946?w=400&h=600&fit=crop",
     cs "https://images.unsplash.com/photo-1518895949257-7621c3c786d7?w=400&h=600&fit=crop",
     cs "https://images.unsplash.com/photo-1463320726281-696a485928c7?w=400&h=600&fit=crop",
     cs "https://images.unsplash.com/photo-1502082553048-f009c37129b9?w=400&h=600&fit=crop",
     cs "https://images.unsplash.com/photo-1507003211169-0a1dd7228f2d?w=400&h=600&fit=crop"]),
   (cs "nature_sky",
    [cs "https://images.unsplash.com/photo-1506905925346-21bda4d32df4?w=400&h=600&fit=crop",
     cs "https://images.unsplash.com/photo-1500382017468-9049fed747ef?w=400&h=600&fit=crop",
     cs "https://images.unsplash.com/photo-1519904981063-b0cf448d479e?w=400&h=600&fit=crop",
     cs "https://images.unsplash.com/photo-1506197603052-3cc9c3a201bd?w=400&h=600&fit=crop",
     cs "https://images.unsplash.com/photo-1464822759844-d150baec0494?w=400&h=600&fit=crop"]),
   (cs "city_modern",
    [cs "https://images.unsplash.com/photo-1449824913935-59a10b8d2000?w=400&h=600&fit=crop",
     cs "https://images.unsplash.com/photo-1486406146926-c627a92ad1ab?w=400&h=600&fit=crop",
     cs "https://images.unsplash.com/photo-1477959858617-67f85cf4f1df?w=400&h=600&fit=crop",
     cs "https://images.unsplash.com/photo-1514565131-fce0801e5785?w=400&h=600&fit=crop",
     cs "https://images.unsplash.com/photo-1480714378408-67cf0d13bc1f?w=400&h=600&fit=crop"]),
   (cs "city_street",
    [cs "https://images.unsplash.com/photo-1477959858617-67f85cf4f1df?w=400&h=600&fit=crop",
     cs "https://images.unsplash.com/photo-1514565131-fce0801e5785?w=400&h=600&fit=crop",
     cs "https://images.unsplash.com/photo-1449824913935-59a10b8d2000?w=400&h=600&fit=crop",
     cs "https://images.unsplash.com/photo-1486406146926-c627a92ad1ab?w=400&h=600&fit=crop",
     cs "https://images.unsplash.com/photo-1480714378408-67cf0d13bc1f?w=400&h=600&fit=crop"]),
   (cs "city_cafe",
    [cs "https://images.unsplash.com/photo-1501339847302-ac426a4a7cbb?w=400&h=600&fit=crop",
     cs "https://images.unsplash.com/photo-1554118811-1e0d58224f24?w=400&h=600&fit=crop",
     cs "https://images.unsplash.com/photo-1495474472287-4d71bcdd2085?w=400&h=600&fit=crop",
     cs "https://images.unsplash.com/photo-1559056199-641a0ac8b55e?w=400&h=600&fit=crop",
     cs "https://images.unsplash.com/photo-1521017432531-fbd92d768814?w=400&h=600&fit=crop"]),
   (cs "city_night",
    [cs "https://images.unsplash.com/photo-1514565131-fce0801e5785?w=400&h=600&fit=crop",
     cs "https://images.unsplash.com/photo-1477959858617-67f85cf4f1df?w=400&h=600&fit=crop",
     cs "https://images.unsplash.com/photo-1449824913935-59a10b8d2000?w=400&h=600&fit=crop",
     cs "https://images.unsplash.com/photo-1486406146926-c627a92ad1ab?w=400&h=600&fit=crop",
     cs "https://images.unsplash.com/photo-1480714378408-67cf0d13bc1f?w=400&h=600&fit=crop"]),
   (cs "people_portrait",
    [cs "https://images.unsplash.com/photo-1494790108755-2616c6106db4?w=400&h=600&fit=crop",
     cs "https://images.unsplash.com/photo-1507003211169-0a1dd7228f2d?w=400&h=600&fit=crop",
     cs "https://images.unsplash.com/photo-1517841905240-472988babdf9?w=400&h=600&fit=crop",
     cs "https://images.unsplash.com/photo-1500648767791-00dcc994a43e?w=400&h=600&fit=crop",
     cs "https://images.unsplash.com/photo-1438761681033-6461ffad8d80?w=400&h=600&fit=crop"]),
   (cs "people_happy",
    [cs "https://images.unsplash.com/photo-1507003211169-0a1dd7228f2d?w=400&h=600&fit=crop",
     cs "https://images.unsplash.com/photo-1517841905240-472988babdf9?w=400&h=600&fit=crop",
     cs "https://images.unsplash.com/photo-1500648767791-00dcc994a43e?w=400&h=600&fit=crop",
     cs "https://images.unsplash.com/photo-1494790108755-2616c6106db4?w=400&h=600&fit=crop",
     cs "https://images.unsplash.com/photo-1438761681033-6461ffad8d80?w=400&h=600&fit=crop"]),
   (cs "people_sad",
    [cs "https://images.unsplash.com/photo-1494790108755-2616c6106db4?w=400&h=600&fit=crop",
     cs "https://images.unsplash.com/photo-1507003211169-0a1dd7228f2d?w=400&h=600&fit=crop",
     cs "https://images.unsplash.com/photo-1517841905240-472988babdf9?w=400&h=600&fit=crop",
     cs "https://images.unsplash.com/photo-1500648767791-00dcc994a43e?w=400&h=600&fit=crop",
     cs "https://images.unsplash.com/photo-1438761681033-6461ffad8d80?w=400&h=600&fit=crop"]),
   (cs "people_love",
    [cs "https://images.unsplash.com/photo-1516589178581-6cd7833ae3b2?w=400&h=600&fit=crop",
     cs "https://images.unsplash.com/photo-1518568814500-bf0f8d125f46?w=400&h=600&fit=crop",
     cs "https://images.unsplash.com/photo-1507003211169-0a1dd7228f2d?w=400&h=600&fit=crop",
     cs "https://images.unsplash.com/photo-1517841905240-472988babdf9?w=400&h=600&fit=crop",
     cs "https://images.unsplash.com/photo-1500648767791-00dcc994a43e?w=400&h=600&fit=crop"]),
   (cs "people_friendship",
    [cs "https://images.unsplash.com/photo-1529156069898-49953e39b3ac?w=400&h=600&fit=crop",
     cs "https://images.unsplash.com/photo-1507003211169-0a1dd7228f2d?w=400&h=600&fit=crop",
     cs "https://images.unsplash.com/photo-1517841905240-472988babdf9?w=400&h=600&fit=crop",
     cs "https://images.unsplash.com/photo-1500648767791-00dcc994a43e?w=400&h=600&fit=crop",
     cs "https://images.unsplash.com/photo-1494790108755-2616c6106db4?w=400&h=600&fit=crop"]),
   (cs "people_family",
    [cs "https://images.unsplash.com/photo-1511895426328-dc8714191300?w=400&h=600&fit=crop",
     cs "https://images.unsplash.com/photo-1507003211169-0a1dd7228f2d?w=400&h=600&fit=crop",
     cs "https://images.unsplash.com/photo-1517841905240-472988babdf9?w=400&h=600&fit=crop",
     cs "https://images.unsplash.com/photo-1500648767791-00dcc994a43e?w=400&h=600&fit=crop",
     cs "https://images.unsplash.com/photo-1494790108755-2616c6106db4?w=400&h=600&fit=crop"]),
   (cs "life_home",
    [cs "https://images.unsplash.com/photo-1586023492125-27b2c045efd7?w=400&h=600&fit=crop",
     cs "https://images.unsplash.com/photo-1560448204-e02f11c3d0e2?w=400&h=600&fit=crop",
     cs "https://images.unsplash.com/photo-1556909114-f6e7ad7d3136?w=400&h=600&fit=crop",
     cs "https://images.unsplash.com/photo-1484154218962-a197022b5858?w=400&h=600&fit=crop",
     cs "https://images.unsplash.com/photo-1493809842364-78817add7ffb?w=400&h=600&fit=crop"]),
   (cs "life_work",
    [cs "https://images.unsplash.com/photo-1497032628192-86f99bcd76bc?w=400&h=600&fit=crop",
     cs "https://images.unsplash.com/photo-1486312338219-ce68d2c6f44d?w=400&h=600&fit=crop",
     cs "https://images.unsplash.com/photo-1507003211169-0a1dd7228f2d?w=400&h=600&fit=crop",
     cs "https://images.unsplash.com/photo-1517841905240-472988babdf9?w=400&h=600&fit=crop",
     cs "https://images.unsplash.com/photo-1500648767791-00dcc994a43e?w=400&h=600&fit=crop"]),
   (cs "life_travel",
    [cs "https://images.unsplash.com/photo-1488646953014-85cb44e25828?w=400&h=600&fit=crop",
     cs "https://images.unsplash.com/photo-1506905925346-21bda4d32df4?w=400&h=600&fit=crop",
     cs "https://images.unsplash.com/photo-1464822759844-d150baec0494?w=400&h=600&fit=crop",
     cs "https://images.unsplash.com/photo-1519904981063-b0cf448d479e?w=400&h=600&fit=crop",
     cs "https://images.unsplash.com/photo-1551632811-561732d1e306?w=400&h=600&fit=crop"]),
   (cs "life_food",
    [cs "https://images.unsplash.com/photo-1504674900247-0877df9cc836?w=400&h=600&fit=crop",
     cs "https://images.unsplash.com/photo-1565299624946-b28f40a0ca4b?w=400&h=600&fit=crop",
     cs "https://images.unsplash.com/photo-1567620905732-2d1ec7ab7445?w=400&h=600&fit=crop",
     cs "https://images.unsplash.com/photo-1540189549336-e6e99c3679fe?w=400&h=600&fit=crop",
     cs "https://images.unsplash.com/photo-1551782450-a2132b4ba21d?w=400&h=600&fit=crop"]),
   (cs "life_reading",
    [cs "https://images.unsplash.com/photo-1481627834876-b7833e8f5570?w=400&h=600&fit=crop",
     cs "https://images.unsplash.com/photo-1507003211169-0a1dd7228f2d?w=400&h=600&fit=crop",
     cs "https://images.unsplash.com/photo-1517841905240-472988babdf9?w=400&h=600&fit=crop",
     cs "https://images.unsplash.com/photo-1500648767791-00dcc994a43e?w=400&h=600&fit=crop",
     cs "https://images.unsplash.com/photo-1494790108755-2616c6106db4?w=400&h=600&fit=crop"]),
   (cs "abstract_dream",
    [cs "https://images.unsplash.com/photo-1506905925346-21bda4d32df4?w=400&h=600&fit=crop",
     cs "https://images.unsplash.com/photo-1500382017468-9049fed747ef?w=400&h=600&fit=crop",
     cs "https://images.unsplash.com/photo-1519904981063-b0cf448d479e?w=400&h=600&fit=crop",
     cs "https://images.unsplash.com/photo-1506197603052-3cc9c3a201bd?w=400&h=600&fit=crop",
     cs "https://images.unsplash.com/photo-1464822759844-d150baec0494?w=400&h=600&fit=crop"]),
   (cs "abstract_memory",
    [cs "https://images.unsplash.com/photo-1507003211169-0a1dd7228f2d?w=400&h=600&fit=crop",
     cs "https://images.unsplash.com/photo-1517841905240-472988babdf9?w=400&h=600&fit=crop",
     cs "https://images.unsplash.com/photo-1500648767791-00dcc994a43e?w=400&h=600&fit=crop",
     cs "https://images.unsplash.com/photo-1494790108755-2616c6106db4?w=400&h=600&fit=crop",
     cs "https://images.unsplash.com/photo-1438761681033-6461ffad8d80?w=400&h=600&fit=crop"]),
   (cs "abstract_growth",
    [cs "https://images.unsplash.com/photo-1490750967868-88aa4486c946?w=400&h=600&fit=crop",
     cs "https://images.unsplash.com/photo-1518895949257-7621c3c786d7?w=400&h=600&fit=crop",
     cs "https://images.unsplash.com/photo-1463320726281-696a485928c7?w=400&h=600&fit=crop",
     cs "https://images.unsplash.com/photo-1502082553048-f009c37129b9?w=400&h=600&fit=crop",
     cs "https://images.unsplash.com/photo-1507003211169-0a1dd7228f2d?w=400&h=600&fit=crop"]),
   (cs "abstract_peace",
    [cs "https://images.unsplash.com/photo-1506905925346-21bda4d32df4?w=400&h=600&fit=crop",
     cs "https://images.unsplash.com/photo-1500382017468-9049fed747ef?w=400&h=600&fit=crop",
     cs "https://images.unsplash.com/photo-1519904981063-b0cf448d479e?w=400&h=600&fit=crop",
     cs "https://images.unsplash.com/photo-1506197603052-3cc9c3a201bd?w=400&h=600&fit=crop",
     cs "https://images.unsplash.com/photo-1464822759844-d150baec0494?w=400&h=600&fit=crop"]),
   (cs "abstract_emotion",
    [cs "https://images.unsplash.com/photo-1507003211169-0a1dd7228f2d?w=400&h=600&fit=crop",
     cs "https://images.unsplash.com/photo-1517841905240-472988babdf9?w=400&h=600&fit=crop",
     cs "https://images.unsplash.com/photo-1500648767791-00dcc994a43e?w=400&h=600&fit=crop",
     cs "https://images.unsplash.com/photo-1494790108755-2616c6106db4?w=400&h=600&fit=crop",
     cs "https://images.unsplash.com/photo-1438761681033-6461ffad8d80?w=400&h=600&fit=crop"]),
   (cs "season_spring",
    [cs "https://images.unsplash.com/photo-1490750967868-88aa4486c946?w=400&h=600&fit=crop",
     cs "https://images.unsplash.com/photo-1518895949257-7621c3c786d7?w=400&h=600&fit=crop",
     cs "https://images.unsplash.com/photo-1463320726281-696a485928c7?w=400&h=600&fit=crop",
     cs "https://images.unsplash.com/photo-1502082553048-f009c37129b9?w=400&h=600&fit=crop",
     cs "https://images.unsplash.com/photo-1507003211169-0a1dd7228f2d?w=400&h=600&fit=crop"]),
   (cs "season_summer",
    [cs "https://images.unsplash.com/photo-1505142468610-359e7d316be0?w=400&h=600&fit=crop",
     cs "https://images.unsplash.com/photo-1544551763-46a013bb70d5?w=400&h=600&fit=crop",
     cs "https://images.unsplash.com/photo-1507525428034-b723cf961d3e?w=400&h=600&fit=crop",
     cs "https://images.unsplash.com/photo-1518837695005-2083093ee35b?w=400&h=600&fit=crop",
     cs "https://images.unsplash.com/photo-1439066615861-d1af74d74000?w=400&h=600&fit=crop"]),
   (cs "season_autumn",
    [cs "https://images.unsplash.com/photo-1441974231531-c6227db76b6e?w=400&h=600&fit=crop",
     cs "https://images.unsplash.com/photo-1448375240586-882707db888b?w=400&h=600&fit=crop",
     cs "https://images.unsplash.com/photo-1518837695005-2083093ee35b?w=400&h=600&fit=crop",
     cs "https://images.unsplash.com/photo-1506905925346-21bda4d32df4?w=400&h=600&fit=crop",
     cs "https://images.unsplash.com/photo-1511593358241-7eea1f3c84e5?w=400&h=600&fit=crop"]),
   (cs "season_winter",
    [cs "https://images.unsplash.com/photo-1578662996442-48f60103fc96?w=400&h=600&fit=crop",
     cs "https://images.unsplash.com/photo-1547036967-23d11aacaee0?w=400&h=600&fit=crop",
     cs "https://images.unsplash.com/photo-1483664852095-d6cc6870702d?w=400&h=600&fit=crop",
     cs "https://images.unsplash.com/photo-1506905925346-21bda4d32df4?w=400&h=600&fit=crop",
     cs "https://images.unsplash.com/photo-1464822759844-d150baec0494?w=400&h=600&fit=crop"]),
   (cs "activity_sport",
    [cs "https://images.unsplash.com/photo-1571019613454-1cb2f99b2d8b?w=400&h=600&fit=crop",
     cs "https://images.unsplash.com/photo-1544367567-0f2fcb009e0b?w=400&h=600&fit=crop",
     cs "https://images.unsplash.com/photo-1507003211169-0a1dd7228f2d?w=400&h=600&fit=crop",
     cs "https://images.unsplash.com/photo-1517841905240-472988babdf9?w=400&h=600&fit=crop",
     cs "https://images.unsplash.com/photo-1500648767791-00dcc994a43e?w=400&h=600&fit=crop"]),
   (cs "activity_art",
    [cs "https://images.unsplash.com/photo-1513475382585-d06e58bcb0e0?w=400&h=600&fit=crop",
     cs "https://images.unsplash.com/photo-1507003211169-0a1dd7228f2d?w=400&h=600&fit=crop",
     cs "https://images.unsplash.com/photo-1517841905240-472988babdf9?w=400&h=600&fit=crop",
     cs "https://images.unsplash.com/photo-1500648767791-00dcc994a43e?w=400&h=600&fit=crop",
     cs "https://images.unsplash.com/photo-1494790108755-2616c6106db4?w=400&h=600&fit=crop"]),
   (cs "activity_relax",
    [cs "https://images.unsplash.com/photo-1586023492125-27b2c045efd7?w=400&h=600&fit=crop",
     cs "https://images.unsplash.com/photo-1560448204-e02f11c3d0e2?w=400&h=600&fit=crop",
     cs "https://images.unsplash.com/photo-1556909114-f6e7ad7d3136?w=400&h=600&fit=crop",
     cs "https://images.unsplash.com/photo-1484154218962-a197022b5858?w=400&h=600&fit=crop",
     cs "https://images.unsplash.com/photo-1493809842364-78817add7ffb?w=400&h=600&fit=crop"]),
   (cs "animal_cat",
    [cs "https://images.unsplash.com/photo-1514888286974-6c03e2ca1dba?w=400&h=600&fit=crop",
     cs "https://images.unsplash.com/photo-1533738363-b7f9aef128ce?w=400&h=600&fit=crop",
     cs "https://images.unsplash.com/photo-1574158622682-e40e69881006?w=400&h=600&fit=crop",
     cs "https://images.unsplash.com/photo-1592194996308-7b43878e84a6?w=400&h=600&fit=crop",
     cs "https://images.unsplash.com/photo-1518791841217-8f162f1e1131?w=400&h=600&fit=crop"]),
   (cs "animal_dog",
    [cs "https://images.unsplash.com/photo-1552053831-71594a27632d?w=400&h=600&fit=crop",
     cs "https://images.unsplash.com/photo-1587300003388-59208cc962cb?w=400&h=600&fit=crop",
     cs "https://images.unsplash.com/photo-1518717758536-85ae29035b6d?w=400&h=600&fit=crop",
     cs "https://images.unsplash.com/photo-1583337130417-3346a1be7dee?w=400&h=600&fit=crop",
     cs "https://images.unsplash.com/photo-1561037404-61cd46aa615b?w=400&h=600&fit=crop"]),
   (cs "animal_bird",
    [cs "https://images.unsplash.com/photo-1444464666168-49d633b86797?w=400&h=600&fit=crop",
     cs "https://images.unsplash.com/photo-1520637836862-4d197d17c55a?w=400&h=600&fit=crop",
     cs "https://images.unsplash.com/photo-1506905925346-21bda4d32df4?w=400&h=600&fit=crop",
     cs "https://images.unsplash.com/photo-1464822759844-d150baec0494?w=400&h=600&fit=crop",
     cs "https://images.unsplash.com/photo-1519904981063-b0cf448d479e?w=400&h=600&fit=crop"]),
   (cs "animal_wild",
    [cs "https://images.unsplash.com/photo-1474511320723-9a56873867b5?w=400&h=600&fit=crop",
     cs "https://images.unsplash.com/photo-1558618666-fcd25c85cd64?w=400&h=600&fit=crop",
     cs "https://images.unsplash.com/photo-1506905925346-21bda4d32df4?w=400&h=600&fit=crop",
     cs "https://images.unsplash.com/photo-1464822759844-d150baec0494?w=400&h=600&fit=crop",
     cs "https://images.unsplash.com/photo-1519904981063-b0cf448d479e?w=400&h=600&fit=crop"])
  ]

/-- `scene_keywords` of `_analyze_ai_description`. -/
def sceneKeywords : List (List Char × List (List Char)) :=
  [
   (cs "nature_mountain", [cs "山", cs "山峰", cs "山脉", cs "高山", cs "雪山", cs "峰峦", cs "登山", cs "徒步"]),
   (cs "nature_ocean", [cs "海", cs "海洋", cs "海滩", cs "海岸", cs "波浪", cs "海水", cs "沙滩", cs "海边"]),
   (cs "nature_forest", [cs "森林", cs "树林", cs "树木", cs "绿色", cs "叶子", cs "植物", cs "自然"]),
   (cs "nature_flower", [cs "花", cs "花朵", cs "花园", cs "鲜花", cs "花瓣", cs "盛开", cs "绽放"]),
   (cs "nature_sky", [cs "天空", cs "云", cs "云朵", cs "蓝天", cs "白云", cs "晴空", cs "天际"]),
   (cs "city_modern", [cs "城市", cs "建筑", cs "高楼", cs "现代", cs "都市", cs "摩天大楼"]),
   (cs "city_street", [cs "街道", cs "马路", cs "街景", cs "商店", cs "行人", cs "车辆"]),
   (cs "lifestyle_food", [cs "食物", cs "美食", cs "餐厅", cs "菜品", cs "料理", cs "烹饪"]),
   (cs "lifestyle_travel", [cs "旅行", cs "旅游", cs "景点", cs "度假", cs "探索", cs "冒险"]),
   (cs "lifestyle_fashion", [cs "时尚", cs "服装", cs "穿搭", cs "风格", cs "潮流", cs "搭配"]),
   (cs "animal_pet", [cs "宠物", cs "猫", cs "狗", cs "动物", cs "可爱", cs "毛茸茸"]),
   (cs "animal_bird", [cs "鸟", cs "小鸟", cs "飞鸟", cs "翅膀", cs "飞翔", cs "羽毛"]),
   (cs "animal_wild", [cs "野生动物", cs "兔子", cs "松鼠", cs "蝴蝶", cs "昆虫", cs "野生"])
  ]

/-- `emotion_keywords` of `_analyze_ai_description`. -/
def aiEmotionKeywords : List (List Char × List (List Char)) :=
  [
   (cs "温暖", [cs "温暖", cs "温馨", cs "舒适", cs "柔和", cs "亲切"]),
   (cs "宁静", [cs "宁静", cs "安静", cs "平静", cs "祥和", cs "静谧"]),
   (cs "活力", [cs "活力", cs "生机", cs "充满", cs "活跃", cs "动感"]),
   (cs "浪漫", [cs "浪漫", cs "唯美", cs "梦幻", cs "美丽", cs "优雅"]),
   (cs "神秘", [cs "神秘", cs "深邃", cs "朦胧", cs "幽深", cs "隐秘"]),
   (cs "壮观", [cs "壮观", cs "雄伟", cs "壮丽", cs "震撼", cs "宏伟"])
  ]
/-- `element_keywords` of `_analyze_ai_description`. -/
def elementKeywords : List (List Char) :=
  [cs "颜色", cs "光线", cs "阴影", cs "纹理", cs "形状", cs "线条", cs "构图",
   cs "透视", cs "对比", cs "明暗"]

/-- The result record of `_analyze_ai_description`. -/
structure AiAnalysis where
  sceneType : List Char
  dominantEmotion : List Char
  visualElements : List (List Char)

/-- `_analyze_ai_description`: first scene table entry with a keyword hit
(else `general`), first emotion entry with a hit (else `neutral`), and the
visual elements present. -/
def analyzeAiDescription (pt : List Char) : AiAnalysis :=
  { sceneType := ((sceneKeywords.find? (fun p => anyKw p.2 pt)).map
      (fun p => p.1)).getD (cs "general")
    dominantEmotion := ((aiEmotionKeywords.find? (fun p => anyKw p.2 pt)).map
      (fun p => p.1)).getD (cs "neutral")
    visualElements := elementKeywords.filter (fun e => isSubstr e pt) }

/-- `' '.join(words[max(0, i-2):min(len(words), i+3)])`, the context window
used both in the semantic-score loop and in `_get_emotion_context`. -/
def contextWindow (words : List (List Char)) (i : Nat) : List Char :=
  List.intercalate [' ']
    ((words.drop (i - 2)).take (min words.length (i + 3) - (i - 2)))

/-- `_get_emotion_context`. -/
def getEmotionContext (pt emotion : List Char) : List Char :=
  match (pySplitWs pt).findIdx? (fun w => isSubstr emotion w) with
  | some i => contextWindow (pySplitWs pt) i
  | none => []

/-- Keyword score contribution of one keyword: 3 for presence, +1 when the
first occurrence lies in the first 30% of the prompt (`pos < len*0.3`,
modelled exactly as `10*pos < 3*len`), plus `min(count-1, 2)`. -/
def kwScoreOne (pt kw : List Char) : Nat :=
  if isSubstr kw pt then
    3 + (if 10 * ((findSub kw pt).getD 0) < 3 * pt.length then 1 else 0) +
      min (countSub kw pt - 1) 2
  else 0

/-- Semantic score contribution of one semantic word: 2 for presence, +1
when one of the first five theme keywords occurs in the whitespace-token
context window around the first token containing the word. -/
def semScoreOne (pt : List Char) (kws5 : List (List Char)) (sw : List Char) :
    Nat :=
  if isSubstr sw pt then
    2 + (match (pySplitWs pt).findIdx? (fun w => isSubstr sw w) with
      | some i => if anyKw kws5 (contextWindow (pySplitWs pt) i) then 1 else 0
      | none => 0)
  else 0

/-- Emotion score contribution of one emotion word: 2 for presence, +1 when
`_get_emotion_context` returns a non-empty context. -/
def emoScoreOne (pt em : List Char) : Nat :=
  if isSubstr em pt then
    2 + (if (getEmotionContext pt em).isEmpty then 0 else 1)
  else 0

/-- The AI-description bonus: +3 when a component of the analysed scene type
occurs in the theme name, +2 when the dominant emotion is one of the theme's
emotion words, +1 per visual element among the theme's keyword/semantic
lists. -/
def aiScore (theme : List Char) (td : ThemeData) (ai : AiAnalysis) : Nat :=
  (if (splitOnCharList ['_'] ai.sceneType).any
      (fun w => isSubstr w theme) then 3 else 0) +
  (if td.emotions.contains ai.dominantEmotion then 2 else 0) +
  (ai.visualElements.filter
    (fun e => td.keywords.contains e || td.semantic.contains e)).length

/-- The weighted theme score, scaled by 10: the source computes the float
`0.4*k + 0.3*s + 0.2*e + 0.1*a` with integer components; `4k+3s+2e+a` is the
same value times 10.  The theorems below use scores only through equality
with 0, for which the scaling (and the absence of float rounding, exact at
0.0) is faithful. -/
def score10 (pt : List Char) (ai : AiAnalysis) (theme : List Char)
    (td : ThemeData) : Nat :=
  4 * (td.keywords.map (kwScoreOne pt)).sum +
  3 * (td.semantic.map (semScoreOne pt (td.keywords.take 5))).sum +
  2 * (td.emotions.map (emoScoreOne pt)).sum +
  aiScore theme td ai

/-- The per-theme score table (`theme_scores`, insertion order). -/
def demoThemeScores (pt : List Char) (ai : AiAnalysis) :
    List (List Char × Nat) :=
  enhancedThemeMapping.map (fun p => (p.1, score10 pt ai p.1 p.2))

/-- Python `max(items, key=lambda x: x[1])`: the first item achieving the
maximum (strict `>` replaces the running best). -/
def pyMaxSnd : (List Char × Nat) → List (List Char × Nat) →
    (List Char × Nat)
  | best, [] => best
  | best, x :: rest => pyMaxSnd (if x.2 > best.2 then x else best) rest

/-- `_get_intelligent_default_theme` (only reachable when the score dict is
empty, which never happens since every theme is inserted). -/
def intelligentDefaultTheme (pt : List Char) : List Char :=
  if anyKw [cs "自然", cs "风景", cs "户外", cs "天空", cs "云"] pt then
    cs "nature_sky"
  else if anyKw [cs "城市", cs "建筑", cs "现代", cs "都市"] pt then
    cs "city_modern"
  else if anyKw [cs "动物", cs "宠物", cs "可爱"] pt then cs "animal_pet"
  else if anyKw [cs "食物", cs "美食", cs "料理"] pt then cs "lifestyle_food"
  else cs "nature_sky"

/-- Association-list lookup (`dict[key]` / `key in dict`). -/
def assocLookup {β : Type} (tbl : List (List Char × β)) (k : List Char) :
    Option β :=
  (tbl.find? (fun p => p.1 == k)).map (fun p => p.2)

/-- Theme selection of `_generate_demo_image`: `max` over the score dict
when it is non-empty (it always is), else the intelligent default. -/
def selectedTheme (prompt : List Char) : List Char :=
  let pt := pyLower prompt
  let ai := analyzeAiDescription pt
  match demoThemeScores pt ai with
  | [] => intelligentDefaultTheme pt
  | x :: rest => (pyMaxSnd x rest).1

/-- `_generate_demo_image`: pool of the selected theme (`nature_sky` when
the key is missing), then index `int(md5(f"{prompt}_{segment_id}"
.encode()).hexdigest(), 16) % len(pool)`. -/
def generateDemoImage (prompt : List Char) (segmentId : Nat) : List Char :=
  let pool := match assocLookup xiaohongshuImages (selectedTheme prompt) with
    | some l => l
    | none => (assocLookup xiaohongshuImages (cs "nature_sky")).getD []
  let hashVal := md5HexInt (utf8Encode (prompt ++ '_' :: decimalRepr segmentId))
  pool.getD (hashVal % pool.length) []

/-! ## Claims C3 and C5: fallback image selection -/

theorem pyMaxSnd_mem : ∀ (rest : List (List Char × Nat)) (x),
    pyMaxSnd x rest ∈ x :: rest := by
  intro rest
  induction rest with
  | nil => intro x; simp [pyMaxSnd]
  | cons y rest ih =>
    intro x
    show pyMaxSnd (if y.2 > x.2 then y else x) rest ∈ _
    rcases List.mem_cons.mp (ih (if y.2 > x.2 then y else x)) with h1 | h2
    · rw [h1]
      by_cases hc : y.2 > x.2 <;> simp [hc]
    · exact List.mem_cons_of_mem _ (List.mem_cons_of_mem _ h2)

theorem pyMaxSnd_all_eq (v : Nat) : ∀ (rest : List (List Char × Nat)) (x),
    x.2 = v → (∀ y ∈ rest, y.2 = v) → pyMaxSnd x rest = x := by
  intro rest
  induction rest with
  | nil => intro x _ _; rfl
  | cons y rest ih =>
    intro x hx hall
    show pyMaxSnd (if y.2 > x.2 then y else x) rest = x
    have hy : y.2 = v := hall y (List.mem_cons_self y rest)
    rw [if_neg (by omega)]
    exact ih x hx (fun z hz => hall z (List.mem_cons_of_mem _ hz))

/-- Every theme key of the scoring table owns a five-image pool. -/
theorem pools_ok : enhancedThemeMapping.all (fun td =>
    (assocLookup xiaohongshuImages td.1).isSome &&
    ((assocLookup xiaohongshuImages td.1).getD []).length == 5) = true := by
  decide

theorem selectedTheme_mem (p : List Char) :
    selectedTheme p ∈ enhancedThemeMapping.map Prod.fst := by
  simp only [selectedTheme]
  split
  · next heq =>
    have := congrArg List.length heq
    simp [demoThemeScores] at this
    exact absurd (congrArg List.length this) (by decide)
  · next x rest heq =>
    have h2 : pyMaxSnd x rest ∈
        demoThemeScores (pyLower p) (analyzeAiDescription (pyLower p)) :=
      heq ▸ pyMaxSnd_mem rest x
    unfold demoThemeScores at h2
    obtain ⟨td, htd, hel⟩ := List.mem_map.mp h2
    rw [← hel]
    exact List.mem_map.mpr ⟨td, htd, rfl⟩

/-- C3: the fallback image selection is a pure function of
`(prompt, segment_id)`; the selected theme's pool always has exactly 5
images, and the index into it is the MD5 hex digest of
`prompt + "_" + str(segment_id)` read as an integer, modulo 5. -/
theorem c3_demo_image_pure_hash (p p' : List Char) (s s' : Nat)
    (hp : p = p') (hs : s = s') :
    generateDemoImage p s = generateDemoImage p' s' ∧
    ∃ pool, assocLookup xiaohongshuImages (selectedTheme p) = some pool ∧
      pool.length = 5 ∧
      generateDemoImage p s = pool.getD
        (md5HexInt (utf8Encode (p ++ '_' :: decimalRepr s)) % 5) [] := by
  subst hp
  subst hs
  refine ⟨rfl, ?_⟩
  obtain ⟨td, htd, hfst⟩ := List.mem_map.mp (selectedTheme_mem p)
  have hall := (List.all_eq_true.mp pools_ok) td htd
  rw [hfst] at hall
  simp only [Bool.and_eq_true, beq_iff_eq, Option.isSome_iff_exists] at hall
  obtain ⟨⟨pool, hlk⟩, hlen⟩ := hall
  rw [hlk] at hlen
  simp only [Option.getD_some] at hlen
  refine ⟨pool, hlk, hlen, ?_⟩
  simp only [generateDemoImage]
  rw [hlk]
  rw [hlen]

/-- Witness for `c3_demo_image_pure_hash` at `("hello", 1)`. -/
theorem c3_demo_image_pure_hash_witness :
    generateDemoImage (cs "hello") 1 = generateDemoImage (cs "hello") 1 ∧
    ∃ pool, assocLookup xiaohongshuImages (selectedTheme (cs "hello")) =
        some pool ∧
      pool.length = 5 ∧
      generateDemoImage (cs "hello") 1 = pool.getD
        (md5HexInt (utf8Encode (cs "hello" ++ '_' :: decimalRepr 1)) % 5) [] :=
  c3_demo_image_pure_hash (cs "hello") (cs "hello") 1 1 rfl rfl

/-- C5 counterexample: on prompt `"xyz"` every theme scores 0, yet the
selection does not fall back to the default-rule function (which would give
`nature_sky`): `max` over the all-zero score dict returns its first key
`nature_mountain`, and for segment id 8 the returned URL is the fourth
`nature_mountain` image, which is not in the `nature_sky` pool at all. -/
theorem c5_counterexample :
    (enhancedThemeMapping.all (fun td =>
      score10 (pyLower (cs "xyz")) (analyzeAiDescription (pyLower (cs "xyz")))
        td.1 td.2 == 0)) = true ∧
    intelligentDefaultTheme (pyLower (cs "xyz")) = cs "nature_sky" ∧
    selectedTheme (cs "xyz") = cs "nature_mountain" ∧
    generateDemoImage (cs "xyz") 8 = cs
      "https://images.unsplash.com/photo-1551632811-561732d1e306?w=400&h=600&fit=crop" ∧
    (((assocLookup xiaohongshuImages (cs "nature_sky")).getD []).contains
      (cs "https://images.unsplash.com/photo-1551632811-561732d1e306?w=400&h=600&fit=crop"))
      = false := by
  refine ⟨by decide, by decide, by decide, by decide, by decide⟩

/-- C5 amended: when every theme's weighted score is 0, the winning theme is
the first entry of the table, `nature_mountain` (the default-rule helper is
unreachable because the score dict is never empty), and the URL is drawn
from the `nature_mountain` pool at the MD5 index. -/
theorem c5_all_zero_first_theme (p : List Char) (s : Nat)
    (hz : ∀ td ∈ enhancedThemeMapping,
      score10 (pyLower p) (analyzeAiDescription (pyLower p)) td.1 td.2 = 0) :
    selectedTheme p = cs "nature_mountain" ∧
    generateDemoImage p s =
      ((assocLookup xiaohongshuImages (cs "nature_mountain")).getD []).getD
        (md5HexInt (utf8Encode (p ++ '_' :: decimalRepr s)) % 5) [] := by
  have hsel : selectedTheme p = cs "nature_mountain" := by
    simp only [selectedTheme]
    split
    · next heq =>
      have := congrArg List.length heq
      simp [demoThemeScores] at this
      exact absurd (congrArg List.length this) (by decide)
    · next x rest heq =>
      have hall : ∀ y ∈ x :: rest, y.2 = 0 := by
        intro y hy
        rw [← heq] at hy
        unfold demoThemeScores at hy
        obtain ⟨td, htd, hel⟩ := List.mem_map.mp hy
        rw [← hel]
        exact hz td htd
      rw [pyMaxSnd_all_eq 0 rest x (hall x (List.mem_cons_self x rest))
        (fun y hy => hall y (List.mem_cons_of_mem _ hy))]
      have h1 : ((demoThemeScores (pyLower p)
          (analyzeAiDescription (pyLower p))).headD ([], 0)).1 =
          cs "nature_mountain" := rfl
      rw [heq] at h1
      simpa using h1
  refine ⟨hsel, ?_⟩
  simp only [generateDemoImage]
  rw [hsel]
  have h5 : ((assocLookup xiaohongshuImages
      (cs "nature_mountain")).getD []).length = 5 := by decide
  cases hlk : assocLookup xiaohongshuImages (cs "nature_mountain") with
  | none => rw [hlk] at h5; simp at h5
  | some pool =>
    rw [hlk] at h5
    simp only [Option.getD_some] at h5
    show pool.getD (md5HexInt (utf8Encode (p ++ '_' :: decimalRepr s)) %
      pool.length) [] = pool.getD (md5HexInt (utf8Encode
        (p ++ '_' :: decimalRepr s)) % 5) []
    rw [h5]

/-- Witness for `c5_all_zero_first_theme` at `("xyz", 8)`. -/
theorem c5_all_zero_first_theme_witness :
    selectedTheme (cs "xyz") = cs "nature_mountain" ∧
    generateDemoImage (cs "xyz") 8 =
      ((assocLookup xiaohongshuImages (cs "nature_mountain")).getD []).getD
        (md5HexInt (utf8Encode (cs "xyz" ++ '_' :: decimalRepr 8)) % 5) [] :=
  c5_all_zero_first_theme (cs "xyz") 8 (by decide)

/-! ## Prompt composer (C4, C7)

Embedding of `_extract_article_core_info`, `_build_visual_elements`,
`STYLE_TEMPLATES`, `_determine_unified_style`, the five section builders,
`_truncate_text` and `_generate_xiaohongshu_prompt`
(src/backend/main.py lines 1405-1483 and 1623-1868). -/

/-- Python `sep.join(parts)`. -/
def joinSep (sep : List Char) : List (List Char) → List Char
  | [] => []
  | [x] => x
  | x :: y :: rest => x ++ sep ++ joinSep sep (y :: rest)

/-- Membership in the character class `[一-龯]` (U+4E00 to U+9FAF). -/
def isCJK (c : Char) : Bool := decide (0x4E00 ≤ c.toNat) && decide (c.toNat ≤ 0x9FAF)

/-- First match of `re.findall(r'[一-龯]{2,6}', s)`: the regex engine advances
until two consecutive class characters are found, then matches greedily up to
six; `[]` when no position admits a length-2 match. -/
def firstCJKRun : List Char → List Char
  | [] => []
  | [_] => []
  | c :: d :: rest =>
    if isCJK c && isCJK d then (c :: d :: rest.takeWhile isCJK).take 6
    else firstCJKRun (d :: rest)

/-- The truncation punctuation set `'，。、'` of `_truncate_text`. -/
def cnPunct : List Char := cs "，。、"

/-- The scan `for i in range(max_length - 1, max_length // 2, -1)` of
`_truncate_text`: first index, counting down to `stop` exclusive, holding a
punctuation mark. -/
def truncScan (text : List Char) (stop : Nat) : Nat → Option Nat
  | 0 => none
  | i + 1 =>
    if i + 1 ≤ stop then none
    else if cnPunct.contains (text.getD (i + 1) ' ') then some (i + 1)
    else truncScan text stop i

/-- `_truncate_text`: keep the text when it fits, otherwise cut back to a
punctuation mark found between `max_length // 2` (exclusive) and
`max_length - 1`, else hard cut at `max_length`. -/
def pyTruncate (text : List Char) (maxLength : Nat) : List Char :=
  if text.length ≤ maxLength then text
  else
    match truncScan text (maxLength / 2) (maxLength - 1) with
    | some i => text.take i
    | none => text.take maxLength

/-- Helper of `specTruncate`: largest index `≤ i` holding a punctuation mark. -/
def specScan (text : List Char) : Nat → Option Nat
  | 0 => if cnPunct.contains (text.getD 0 ' ') then some 0 else none
  | i + 1 =>
    if cnPunct.contains (text.getD (i + 1) ' ') then some (i + 1)
    else specScan text i

/-- Modelled from the spec: "truncation at the nearest preceding punctuation
mark, else a hard cut" - when the text exceeds the budget, cut at the closest
punctuation mark strictly below the budget, else keep the first `maxLength`
characters. -/
def specTruncate (text : List Char) (maxLength : Nat) : List Char :=
  if text.length ≤ maxLength then text
  else
    match maxLength with
    | 0 => []
    | m + 1 =>
      match specScan text m with
      | some i => text.take i
      | none => text.take (m + 1)

/-- The `core_info` dict of `_extract_article_core_info`, with
`core_elements` flattened into the record (`characters`, `actions`, `time`,
`specific_details` and `visual_elements` are initialised and never filled). -/
structure CoreInfo where
  main_theme : List Char
  key_scenes : List (List Char)
  characters : List (List Char)
  objects : List (List Char)
  locations : List (List Char)
  emotions : List (List Char)
  actions : List (List Char)
  time : List Char
  atmosphere : List Char
  content_focus : List Char
  specific_details : List (List Char)
  visual_elements : List (List Char)

def emotionWords : List (List Char) :=
  [cs "快乐", cs "愉悦", cs "温暖", cs "舒适", cs "宁静", cs "激动", cs "感动",
   cs "美好", cs "幸福", cs "满足"]

def atmosphereWords : List (List Char) :=
  [cs "温馨", cs "清新", cs "自然", cs "现代", cs "时尚", cs "简约", cs "优雅",
   cs "活力", cs "宁静", cs "明亮", cs "柔和"]

def visualObjects : List (List Char) :=
  [cs "书", cs "咖啡", cs "花", cs "植物", cs "电脑", cs "手机", cs "笔记本",
   cs "杯子", cs "窗户", cs "桌子", cs "椅子", cs "灯", cs "相机"]

/-- The `scene_keywords` list local to `_extract_article_core_info`. -/
def sceneKeywordsExtract : List (List Char) :=
  [cs "室内", cs "户外", cs "办公室", cs "咖啡厅", cs "家里", cs "公园",
   cs "街道", cs "教室", cs "图书馆"]

/-- `re.search(r'.*[class].*', s)`: the sentence holds some character of the
class. -/
def hasCharOf (cls : List Char) (s : List Char) : Bool :=
  s.any (fun c => cls.contains c)

/-- The three `descriptive_patterns` character classes (duplicated characters
inside a class are harmless). -/
def descriptivePatterns : List (List Char) :=
  [cs "看到听到感受到", cs "美丽漂亮温暖舒适", cs "阳光光线色彩颜色"]

/-- `[s.strip() for s in re.split(r'[。！？]', text) if len(s.strip()) > 5]`. -/
def extractSentences (text : List Char) : List (List Char) :=
  ((splitOnCharList (cs "。！？") text).map pyStrip).filter
    (fun s => decide (5 < s.length))

/-- The atmosphere inference chain used when no `atmosphere_words` entry
occurs in the text. -/
def inferAtmosphere (text : List Char) : List Char :=
  if anyKw [cs "学习", cs "工作", cs "办公"] text then cs "简约"
  else if anyKw [cs "自然", cs "户外", cs "风景"] text then cs "清新"
  else if anyKw [cs "家", cs "温暖", cs "舒适"] text then cs "温馨"
  else cs "自然"

/-- `_extract_article_core_info`. -/
def extractArticleCoreInfo (text : List Char) : CoreInfo :=
  let sentences := extractSentences text
  { main_theme := match sentences with
      | [] => []
      | s :: _ => firstCJKRun s,
    key_scenes := (sentences.filter (fun s =>
        decide (s.length ≤ 40) && descriptivePatterns.any (fun p => hasCharOf p s))).take 2,
    characters := [],
    objects := visualObjects.filter (fun w => isSubstr w text),
    locations := sceneKeywordsExtract.filter (fun w => isSubstr w text),
    emotions := emotionWords.filter (fun w => isSubstr w text),
    actions := [],
    time := [],
    atmosphere := match atmosphereWords.find? (fun w => isSubstr w text) with
      | some w => w
      | none => inferAtmosphere text,
    content_focus := joinSep (cs "，")
      ((((sentences.take 3).filter (fun s => decide (10 ≤ s.length))).map
        (fun s => s.take 25)).take 2),
    specific_details := [],
    visual_elements := [] }

/-- The `visual` dict of `_build_visual_elements`. -/
structure VisualElements where
  main_subject : List Char
  scene_description : List Char
  style_elements : List Char
  technical_specs : List Char

/-- `_build_visual_elements`. -/
def buildVisualElements (coreInfo : CoreInfo) (textType : List Char) : VisualElements :=
  let mainSubject := match coreInfo.specific_details with
    | d :: _ => d
    | [] =>
      if coreInfo.content_focus = [] then coreInfo.main_theme ++ cs "场景"
      else coreInfo.content_focus.take 20
  let sceneParts :=
    coreInfo.visual_elements.take 2 ++
    (if coreInfo.atmosphere = [] then [] else [coreInfo.atmosphere ++ cs "氛围"]) ++
    (match coreInfo.emotions with
     | e :: _ => [e ++ cs "感"]
     | [] => [])
  let styleParts :=
    (if coreInfo.atmosphere = [] then [] else [coreInfo.atmosphere]) ++
    (match coreInfo.emotions with
     | e :: _ => [e]
     | [] => [])
  { main_subject := mainSubject,
    scene_description := if sceneParts = [] then cs "温馨生活场景"
      else joinSep (cs "，") sceneParts,
    style_elements := if styleParts = [] then cs "温馨自然"
      else joinSep (cs "，") styleParts,
    technical_specs := cs "高清摄影，专业构图，自然光线" }

/-- One entry of `STYLE_TEMPLATES`. -/
structure StyleTemplate where
  base_style : List Char
  color_palette : List Char
  lighting : List Char
  composition : List Char
  texture : List Char
  mood : List Char

/-- The global `STYLE_TEMPLATES` dict (insertion order preserved). -/
def STYLE_TEMPLATES : List (List Char × StyleTemplate) :=
  [(cs "温馨治愈",
    { base_style := cs "温馨治愈风格", color_palette := cs "暖色调，米色，奶茶色，浅粉色",
      lighting := cs "柔和自然光，温暖光线", composition := cs "居中构图，温馨氛围",
      texture := cs "柔和质感，温润材质", mood := cs "温馨舒适，治愈感" }),
   (cs "清新自然",
    { base_style := cs "清新自然风格", color_palette := cs "清新色调，绿色，白色，浅蓝色",
      lighting := cs "明亮自然光，清晨阳光", composition := cs "简洁构图，自然布局",
      texture := cs "清爽质感，自然材质", mood := cs "清新舒适，自然感" }),
   (cs "现代简约",
    { base_style := cs "现代简约风格", color_palette := cs "简约色调，黑白灰，高级灰",
      lighting := cs "均匀光线，现代感照明", composition := cs "几何构图，简洁布局",
      texture := cs "光滑质感，现代材质", mood := cs "简约大气，现代感" }),
   (cs "文艺复古",
    { base_style := cs "文艺复古风格", color_palette := cs "复古色调，棕色，深绿，暗红",
      lighting := cs "柔和侧光，复古氛围", composition := cs "经典构图，文艺布局",
      texture := cs "复古质感，怀旧材质", mood := cs "文艺气息，复古感" }),
   (cs "活力青春",
    { base_style := cs "活力青春风格", color_palette := cs "明亮色调，橙色，黄色，粉色",
      lighting := cs "明亮光线，活力照明", composition := cs "动感构图，活跃布局",
      texture := cs "光泽质感，活力材质", mood := cs "青春活力，动感十足" })]

/-- `STYLE_TEMPLATES[name]`; the code only ever looks up the five keys the
table holds, so the empty default template is unreachable. -/
def templateFor (name : List Char) : StyleTemplate :=
  (assocLookup STYLE_TEMPLATES name).getD
    { base_style := [], color_palette := [], lighting := [], composition := [],
      texture := [], mood := [] }

/-- `_determine_unified_style` (the `text_type` argument is accepted and never
read, as in the source). -/
def determineUnifiedStyle (coreInfo : CoreInfo) (textType stylePrompt : List Char) :
    List Char :=
  if stylePrompt ≠ [] ∧ stylePrompt ≠ cs "现代简约风格" then
    if isSubstr (cs "温馨") stylePrompt || isSubstr (cs "治愈") stylePrompt then cs "温馨治愈"
    else if isSubstr (cs "清新") stylePrompt || isSubstr (cs "自然") stylePrompt then cs "清新自然"
    else if isSubstr (cs "文艺") stylePrompt || isSubstr (cs "复古") stylePrompt then cs "文艺复古"
    else if isSubstr (cs "活力") stylePrompt || isSubstr (cs "青春") stylePrompt then cs "活力青春"
    else cs "现代简约"
  else if isSubstr (cs "温馨") coreInfo.atmosphere || isSubstr (cs "温暖") coreInfo.atmosphere then
    cs "温馨治愈"
  else if isSubstr (cs "清新") coreInfo.atmosphere || isSubstr (cs "自然") coreInfo.atmosphere then
    cs "清新自然"
  else if coreInfo.emotions ≠ [] ∧
      (coreInfo.emotions.contains (cs "快乐") || coreInfo.emotions.contains (cs "愉悦")) = true then
    cs "活力青春"
  else if isSubstr (cs "文艺") coreInfo.atmosphere || isSubstr (cs "怀旧") coreInfo.atmosphere then
    cs "文艺复古"
  else cs "现代简约"

/-- `_build_style_positioning`. -/
def buildStylePositioning (coreInfo : CoreInfo) (textType stylePrompt : List Char) :
    List Char :=
  let template := templateFor (determineUnifiedStyle coreInfo textType stylePrompt)
  joinSep (cs "，") [template.base_style, template.mood]

/-- The keyword test selecting the `descriptive_sentence` of
`_build_core_content`. -/
def coreContentDescriptive (s : List Char) : Bool :=
  anyKw [cs "的", cs "在", cs "像", cs "如", cs "美", cs "光", cs "色", cs "温", cs "柔"] s

/-- `[s.strip() for s in re.split(r'[。！？]', text) if 15 <= len(s.strip()) <= 40]`. -/
def coreContentSentences (text : List Char) : List (List Char) :=
  ((splitOnCharList (cs "。！？") text).map pyStrip).filter
    (fun s => decide (15 ≤ s.length) && decide (s.length ≤ 40))

/-- The `content_parts` list of `_build_core_content` after all three append
stages. -/
def coreContentParts (coreInfo : CoreInfo) (text : List Char) : List (List Char) :=
  let contentParts :=
    match ((coreContentSentences text).take 3).find? coreContentDescriptive with
    | some s => [s]
    | none => []
  let contentParts :=
    if coreInfo.main_theme = [] then contentParts
    else match contentParts with
      | [] => [coreInfo.main_theme]
      | s :: _ =>
        if isSubstr coreInfo.main_theme s then contentParts
        else contentParts ++ [coreInfo.main_theme]
  if contentParts = [] then [cs "温馨生活场景"] else contentParts

/-- `_build_core_content`. -/
def buildCoreContent (coreInfo : CoreInfo) (text : List Char) : List Char :=
  joinSep (cs "，") ((coreContentParts coreInfo text).take 2)

/-- The `visual_parts` list of `_build_visual_description` before the
too-few-elements extension. -/
def visualDescParts (visualElements : VisualElements) (template : StyleTemplate) :
    List (List Char) :=
  (if visualElements.main_subject ≠ [] ∧ visualElements.main_subject.length ≤ 20
   then [visualElements.main_subject] else []) ++
  (if visualElements.scene_description ≠ [] ∧ visualElements.scene_description.length ≤ 15
   then [visualElements.scene_description] else []) ++
  [template.color_palette, template.lighting, template.composition]

/-- `_build_visual_description` - note the unified style is re-derived with
empty `text_type` and empty `style_prompt`. -/
def buildVisualDescription (visualElements : VisualElements) (coreInfo : CoreInfo) :
    List Char :=
  let template := templateFor (determineUnifiedStyle coreInfo [] [])
  let visualParts := visualDescParts visualElements template
  let visualParts :=
    if visualParts.length < 3 then
      visualParts ++ [template.color_palette, template.lighting]
    else visualParts
  joinSep (cs "，") (visualParts.take 4)

/-- `_build_layout_requirements`. -/
def buildLayoutRequirements : List Char :=
  cs "竖版构图9:16，小红书风格排版，清晰易读，视觉层次分明"

/-- `_build_detail_supplements` - the unified style is re-derived with the
request text type but empty `style_prompt`. -/
def buildDetailSupplements (coreInfo : CoreInfo) (textType : List Char) : List Char :=
  let template := templateFor (determineUnifiedStyle coreInfo textType [])
  joinSep (cs "，")
    [cs "高清摄影", cs "专业构图", template.texture,
     if textType = cs "叙事文" then cs "情感表达"
     else if textType = cs "说明文" then cs "简洁明了"
     else cs "视觉美感"]

/-- The `style_positioning` variable of `_generate_xiaohongshu_prompt` after
the empty-section default (line 1433). -/
def xhsStylePositioning (text stylePrompt textType : List Char) : List Char :=
  let v := buildStylePositioning (extractArticleCoreInfo text) textType stylePrompt
  if pyStrip v = [] then cs "清新自然风格" else v

/-- The `core_content` variable after the empty-section default (line 1435). -/
def xhsCoreContent (text : List Char) : List Char :=
  let v := buildCoreContent (extractArticleCoreInfo text) text
  if pyStrip v = [] then cs "温馨故事场景" else v

/-- The `visual_desc` variable after the empty-section default (line 1437). -/
def xhsVisualDesc (text textType : List Char) : List Char :=
  let core := extractArticleCoreInfo text
  let v := buildVisualDescription (buildVisualElements core textType) core
  if pyStrip v = [] then cs "柔和光线，温暖色调" else v

/-- The `detail_supplements` variable (never defaulted). -/
def xhsDetailSupplements (text textType : List Char) : List Char :=
  buildDetailSupplements (extractArticleCoreInfo text) textType

/-- The first assembly `full_prompt = "；".join(prompt_sections)` (line 1449),
each section stripped behind its bracketed label. -/
def xhsFullPrompt (text stylePrompt textType : List Char) : List Char :=
  joinSep (cs "；")
    [cs "【风格定位】" ++ pyStrip (xhsStylePositioning text stylePrompt textType),
     cs "【核心内容】" ++ pyStrip (xhsCoreContent text),
     cs "【视觉元素】" ++ pyStrip (xhsVisualDesc text textType),
     cs "【排版要求】" ++ pyStrip buildLayoutRequirements,
     cs "【细节补充】" ++ pyStrip (xhsDetailSupplements text textType)]

/-- `_generate_xiaohongshu_prompt`: the first assembly, re-assembled from
`_truncate_text`-shortened (un-stripped) sections when it exceeds 300. -/
def generateXiaohongshuPrompt (text stylePrompt textType : List Char) : List Char :=
  if (xhsFullPrompt text stylePrompt textType).length > 300 then
    joinSep (cs "；")
      [cs "【风格定位】" ++ pyTruncate (xhsStylePositioning text stylePrompt textType) 15,
       cs "【核心内容】" ++ pyTruncate (xhsCoreContent text) 50,
       cs "【视觉元素】" ++ pyTruncate (xhsVisualDesc text textType) 60,
       cs "【排版要求】" ++ pyTruncate buildLayoutRequirements 30,
       cs "【细节补充】" ++ pyTruncate (xhsDetailSupplements text textType) 25]
  else xhsFullPrompt text stylePrompt textType

/-! ## Claim C4: prompt structure and length bound -/

theorem pyStrip_length_le (s : List Char) : (pyStrip s).length ≤ s.length := by
  rw [pyStrip, List.length_reverse]
  refine le_trans (List.Sublist.length_le (List.dropWhile_sublist _)) ?_
  rw [List.length_reverse]
  exact List.Sublist.length_le (List.dropWhile_sublist _)

theorem joinSep_length_le (sep : List Char) :
    ∀ (l : List (List Char)) (B : Nat), (∀ x ∈ l, x.length ≤ B) →
      (joinSep sep l).length ≤ l.length * (B + sep.length)
  | [], _, _ => by simp [joinSep]
  | [x], B, h => by
    have hx := h x (List.mem_singleton_self x)
    show x.length ≤ 1 * (B + sep.length)
    rw [Nat.one_mul]
    omega
  | x :: y :: rest, B, h => by
    have hx := h x (List.mem_cons_self x (y :: rest))
    have ih := joinSep_length_le sep (y :: rest) B
      (fun z hz => h z (List.mem_cons_of_mem x hz))
    calc (joinSep sep (x :: y :: rest)).length
        = x.length + sep.length + (joinSep sep (y :: rest)).length := by
          show (x ++ sep ++ joinSep sep (y :: rest)).length = _
          simp only [List.length_append]
      _ ≤ (B + sep.length) + (y :: rest).length * (B + sep.length) :=
          Nat.add_le_add (by omega) ih
      _ = (x :: y :: rest).length * (B + sep.length) := by
          rw [show (x :: y :: rest).length = (y :: rest).length + 1 from rfl,
            Nat.succ_mul, Nat.add_comm]

theorem joinSep_take_le (sep : List Char) (l : List (List Char)) (B k : Nat)
    (h : ∀ x ∈ l, x.length ≤ B) :
    (joinSep sep (l.take k)).length ≤ k * (B + sep.length) := by
  have h1 : (l.take k).length ≤ k := by
    rw [List.length_take]
    exact Nat.min_le_left _ _
  exact le_trans
    (joinSep_length_le sep (l.take k) B (fun x hx => h x (List.take_subset _ _ hx)))
    (Nat.mul_le_mul_right _ h1)

theorem joinSep_cons_cons_mem_left (sep x y : List Char) (rest : List (List Char))
    (c : Char) (hc : c ∈ x) : c ∈ joinSep sep (x :: y :: rest) := by
  show c ∈ x ++ sep ++ joinSep sep (y :: rest)
  exact List.mem_append.mpr (Or.inl (List.mem_append.mpr (Or.inl hc)))

theorem firstCJKRun_length_le : ∀ l : List Char, (firstCJKRun l).length ≤ 6
  | [] => by simp [firstCJKRun]
  | [c] => by simp [firstCJKRun]
  | c :: d :: rest => by
    simp only [firstCJKRun]
    by_cases h : (isCJK c && isCJK d) = true
    · rw [if_pos h, List.length_take]
      exact Nat.min_le_left _ _
    · rw [if_neg h]
      exact firstCJKRun_length_le (d :: rest)

theorem extract_main_theme_le (text : List Char) :
    (extractArticleCoreInfo text).main_theme.length ≤ 40 := by
  cases hs : extractSentences text with
  | nil =>
    have h1 : (extractArticleCoreInfo text).main_theme = [] := by
      simp only [extractArticleCoreInfo, hs]
    rw [h1]
    simp
  | cons s rest =>
    have h1 : (extractArticleCoreInfo text).main_theme = firstCJKRun s := by
      simp only [extractArticleCoreInfo, hs]
    rw [h1]
    exact le_trans (firstCJKRun_length_le s) (by omega)

theorem determineUnifiedStyle_mem (coreInfo : CoreInfo) (textType stylePrompt : List Char) :
    determineUnifiedStyle coreInfo textType stylePrompt ∈
      [cs "温馨治愈", cs "清新自然", cs "现代简约", cs "文艺复古", cs "活力青春"] := by
  unfold determineUnifiedStyle
  split_ifs <;> simp

theorem templateFor_fields_le (name : List Char)
    (h : name ∈ [cs "温馨治愈", cs "清新自然", cs "现代简约", cs "文艺复古", cs "活力青春"]) :
    (templateFor name).base_style.length ≤ 6 ∧ (templateFor name).color_palette.length ≤ 20 ∧
    (templateFor name).lighting.length ≤ 20 ∧ (templateFor name).composition.length ≤ 20 ∧
    (templateFor name).texture.length ≤ 9 ∧ (templateFor name).mood.length ≤ 9 := by
  fin_cases h <;> decide

theorem buildStylePositioning_length_le (coreInfo : CoreInfo) (textType stylePrompt : List Char) :
    (buildStylePositioning coreInfo textType stylePrompt).length ≤ 16 := by
  have ht := templateFor_fields_le _ (determineUnifiedStyle_mem coreInfo textType stylePrompt)
  have hb := ht.1
  have hm := ht.2.2.2.2.2
  have e : buildStylePositioning coreInfo textType stylePrompt =
      (templateFor (determineUnifiedStyle coreInfo textType stylePrompt)).base_style ++
        cs "，" ++
        (templateFor (determineUnifiedStyle coreInfo textType stylePrompt)).mood := rfl
  rw [e]
  simp only [List.length_append]
  rw [show (cs "，").length = 1 from rfl]
  omega

theorem coreContentParts_le (coreInfo : CoreInfo) (text : List Char)
    (htheme : coreInfo.main_theme.length ≤ 40) :
    ∀ z ∈ coreContentParts coreInfo text, z.length ≤ 40 := by
  have hsent : ∀ s, ((coreContentSentences text).take 3).find? coreContentDescriptive = some s →
      s.length ≤ 40 := by
    intro s hs
    have hmem := List.take_subset _ _ (List.mem_of_find?_eq_some hs)
    simp only [coreContentSentences, List.mem_filter, Bool.and_eq_true,
      decide_eq_true_eq] at hmem
    exact hmem.2.2
  intro z hz
  simp only [coreContentParts] at hz
  cases hf : ((coreContentSentences text).take 3).find? coreContentDescriptive with
  | none =>
    rw [hf] at hz
    by_cases hth : coreInfo.main_theme = []
    · simp [hth] at hz
      subst hz
      decide
    · simp [hth] at hz
      subst hz
      exact htheme
  | some s =>
    have hs40 := hsent s hf
    rw [hf] at hz
    by_cases hth : coreInfo.main_theme = []
    · simp [hth] at hz
      subst hz
      exact hs40
    · by_cases hsub : isSubstr coreInfo.main_theme s = true
      · simp [hth, hsub] at hz
        subst hz
        exact hs40
      · simp [hth, hsub] at hz
        rcases hz with hz | hz <;> subst hz
        · exact hs40
        · exact htheme

theorem buildCoreContent_length_le (coreInfo : CoreInfo) (text : List Char)
    (htheme : coreInfo.main_theme.length ≤ 40) :
    (buildCoreContent coreInfo text).length ≤ 82 := by
  have h := joinSep_take_le (cs "，") (coreContentParts coreInfo text) 40 2
    (coreContentParts_le coreInfo text htheme)
  rw [show (cs "，").length = 1 from rfl] at h
  exact h

theorem visualDescParts_le (visualElements : VisualElements) (template : StyleTemplate)
    (h1 : template.color_palette.length ≤ 20) (h2 : template.lighting.length ≤ 20)
    (h3 : template.composition.length ≤ 20) :
    ∀ z ∈ visualDescParts visualElements template, z.length ≤ 20 := by
  intro z hz
  simp only [visualDescParts, List.mem_append] at hz
  rcases hz with (hz | hz) | hz
  · by_cases hc : visualElements.main_subject ≠ [] ∧ visualElements.main_subject.length ≤ 20
    · rw [if_pos hc] at hz
      simp at hz
      subst hz
      exact hc.2
    · rw [if_neg hc] at hz
      simp at hz
  · by_cases hc : visualElements.scene_description ≠ [] ∧
        visualElements.scene_description.length ≤ 15
    · rw [if_pos hc] at hz
      simp at hz
      subst hz
      omega
    · rw [if_neg hc] at hz
      simp at hz
  · simp at hz
    rcases hz with hz | hz | hz <;> subst hz
    · exact h1
    · exact h2
    · exact h3

theorem buildVisualDescription_length_le (visualElements : VisualElements)
    (coreInfo : CoreInfo) :
    (buildVisualDescription visualElements coreInfo).length ≤ 84 := by
  have ht := templateFor_fields_le _ (determineUnifiedStyle_mem coreInfo [] [])
  have hparts := visualDescParts_le visualElements
    (templateFor (determineUnifiedStyle coreInfo [] [])) ht.2.1 ht.2.2.1 ht.2.2.2.1
  simp only [buildVisualDescription]
  refine le_trans (joinSep_take_le _ _ 20 4 ?_) (by decide)
  intro z hz
  split at hz
  · rcases List.mem_append.mp hz with hz | hz
    · exact hparts z hz
    · simp at hz
      rcases hz with hz | hz <;> subst hz
      · exact ht.2.1
      · exact ht.2.2.1
  · exact hparts z hz

theorem buildDetailSupplements_length_le (coreInfo : CoreInfo) (textType : List Char) :
    (buildDetailSupplements coreInfo textType).length ≤ 24 := by
  have ht := templateFor_fields_le _ (determineUnifiedStyle_mem coreInfo textType [])
  have htex := ht.2.2.2.2.1
  have e : buildDetailSupplements coreInfo textType =
      cs "高清摄影" ++ cs "，" ++ (cs "专业构图" ++ cs "，" ++
        ((templateFor (determineUnifiedStyle coreInfo textType [])).texture ++ cs "，" ++
         (if textType = cs "叙事文" then cs "情感表达"
          else if textType = cs "说明文" then cs "简洁明了"
          else cs "视觉美感"))) := rfl
  rw [e]
  simp only [List.length_append]
  have h4 : (if textType = cs "叙事文" then cs "情感表达"
      else if textType = cs "说明文" then cs "简洁明了"
      else cs "视觉美感").length ≤ 4 := by
    split_ifs <;> decide
  rw [show (cs "，").length = 1 from rfl, show (cs "高清摄影").length = 4 from rfl,
    show (cs "专业构图").length = 4 from rfl]
  omega

theorem xhsStylePositioning_length_le (text stylePrompt textType : List Char) :
    (pyStrip (xhsStylePositioning text stylePrompt textType)).length ≤ 16 := by
  simp only [xhsStylePositioning]
  split
  · decide
  · exact le_trans (pyStrip_length_le _) (buildStylePositioning_length_le _ _ _)

theorem xhsCoreContent_length_le (text : List Char) :
    (pyStrip (xhsCoreContent text)).length ≤ 82 := by
  simp only [xhsCoreContent]
  split
  · decide
  · exact le_trans (pyStrip_length_le _)
      (buildCoreContent_length_le _ _ (extract_main_theme_le text))

theorem xhsVisualDesc_length_le (text textType : List Char) :
    (pyStrip (xhsVisualDesc text textType)).length ≤ 84 := by
  simp only [xhsVisualDesc]
  split
  · decide
  · exact le_trans (pyStrip_length_le _) (buildVisualDescription_length_le _ _)

theorem xhsDetailSupplements_length_le (text textType : List Char) :
    (pyStrip (xhsDetailSupplements text textType)).length ≤ 24 :=
  le_trans (pyStrip_length_le _) (buildDetailSupplements_length_le _ _)

theorem xhsStylePositioning_strip_ne (text stylePrompt textType : List Char) :
    pyStrip (xhsStylePositioning text stylePrompt textType) ≠ [] := by
  simp only [xhsStylePositioning]
  split
  · decide
  · next h => exact h

theorem xhsCoreContent_strip_ne (text : List Char) :
    pyStrip (xhsCoreContent text) ≠ [] := by
  simp only [xhsCoreContent]
  split
  · decide
  · next h => exact h

theorem xhsVisualDesc_strip_ne (text textType : List Char) :
    pyStrip (xhsVisualDesc text textType) ≠ [] := by
  simp only [xhsVisualDesc]
  split
  · decide
  · next h => exact h

theorem xhsDetailSupplements_strip_ne (text textType : List Char) :
    pyStrip (xhsDetailSupplements text textType) ≠ [] := by
  refine pyStrip_ne_nil _ '高' ?_ (by decide)
  show '高' ∈ joinSep (cs "，")
    [cs "高清摄影", cs "专业构图",
     (templateFor (determineUnifiedStyle (extractArticleCoreInfo text) textType [])).texture,
     if textType = cs "叙事文" then cs "情感表达"
     else if textType = cs "说明文" then cs "简洁明了"
     else cs "视觉美感"]
  exact joinSep_cons_cons_mem_left _ _ _ _ _ (by decide)

theorem xhsFullPrompt_length_le (text stylePrompt textType : List Char) :
    (xhsFullPrompt text stylePrompt textType).length ≤ 268 := by
  have h1 := xhsStylePositioning_length_le text stylePrompt textType
  have h2 := xhsCoreContent_length_le text
  have h3 := xhsVisualDesc_length_le text textType
  have h5 := xhsDetailSupplements_length_le text textType
  have e : xhsFullPrompt text stylePrompt textType =
      (cs "【风格定位】" ++ pyStrip (xhsStylePositioning text stylePrompt textType)) ++ cs "；" ++
      ((cs "【核心内容】" ++ pyStrip (xhsCoreContent text)) ++ cs "；" ++
       ((cs "【视觉元素】" ++ pyStrip (xhsVisualDesc text textType)) ++ cs "；" ++
        ((cs "【排版要求】" ++ pyStrip buildLayoutRequirements) ++ cs "；" ++
         (cs "【细节补充】" ++ pyStrip (xhsDetailSupplements text textType))))) := rfl
  rw [e]
  simp only [List.length_append]
  rw [show (cs "；").length = 1 from rfl, show (cs "【风格定位】").length = 6 from rfl,
    show (cs "【核心内容】").length = 6 from rfl, show (cs "【视觉元素】").length = 6 from rfl,
    show (cs "【排版要求】").length = 6 from rfl, show (cs "【细节补充】").length = 6 from rfl,
    show (pyStrip buildLayoutRequirements).length = 28 from by decide]
  omega

/-- **C4.** For every segment text, style hint and text type,
`_generate_xiaohongshu_prompt` returns the five bracketed sections
【风格定位】【核心内容】【视觉元素】【排版要求】【细节补充】 in that fixed order,
each section non-empty, joined by `；`; the result never exceeds 300
characters (the first assembly is in fact bounded by 268); and whenever the
first assembly exceeded 300 characters the sections would be re-derived under
the per-section budgets 15/50/60/30/25 with the preceding-punctuation
truncation rule - a branch the 268-character bound proves unreachable. -/
theorem c4_prompt_sections (text stylePrompt textType : List Char) :
    ∃ s1 s2 s3 s4 s5 : List Char,
      s1 ≠ [] ∧ s2 ≠ [] ∧ s3 ≠ [] ∧ s4 ≠ [] ∧ s5 ≠ [] ∧
      generateXiaohongshuPrompt text stylePrompt textType =
        joinSep (cs "；")
          [cs "【风格定位】" ++ s1, cs "【核心内容】" ++ s2, cs "【视觉元素】" ++ s3,
           cs "【排版要求】" ++ s4, cs "【细节补充】" ++ s5] ∧
      (generateXiaohongshuPrompt text stylePrompt textType).length ≤ 300 ∧
      ((xhsFullPrompt text stylePrompt textType).length > 300 →
        generateXiaohongshuPrompt text stylePrompt textType =
          joinSep (cs "；")
            [cs "【风格定位】" ++ specTruncate (xhsStylePositioning text stylePrompt textType) 15,
             cs "【核心内容】" ++ specTruncate (xhsCoreContent text) 50,
             cs "【视觉元素】" ++ specTruncate (xhsVisualDesc text textType) 60,
             cs "【排版要求】" ++ specTruncate buildLayoutRequirements 30,
             cs "【细节补充】" ++ specTruncate (xhsDetailSupplements text textType) 25]) := by
  have hle := xhsFullPrompt_length_le text stylePrompt textType
  have heq : generateXiaohongshuPrompt text stylePrompt textType =
      xhsFullPrompt text stylePrompt textType := by
    simp only [generateXiaohongshuPrompt]
    rw [if_neg (by omega)]
  refine ⟨pyStrip (xhsStylePositioning text stylePrompt textType),
    pyStrip (xhsCoreContent text), pyStrip (xhsVisualDesc text textType),
    pyStrip buildLayoutRequirements, pyStrip (xhsDetailSupplements text textType),
    xhsStylePositioning_strip_ne text stylePrompt textType,
    xhsCoreContent_strip_ne text, xhsVisualDesc_strip_ne text textType,
    by decide, xhsDetailSupplements_strip_ne text textType, heq, ?_, ?_⟩
  · rw [heq]
    omega
  · intro hgt
    exact absurd hgt (by omega)

/-- Witness for C4: the statement instantiated at a concrete segment text. -/
theorem c4_prompt_sections_witness :
    ∃ s1 s2 s3 s4 s5 : List Char,
      s1 ≠ [] ∧ s2 ≠ [] ∧ s3 ≠ [] ∧ s4 ≠ [] ∧ s5 ≠ [] ∧
      generateXiaohongshuPrompt (cs "今天的阳光温暖") (cs "") (cs "narrative") =
        joinSep (cs "；")
          [cs "【风格定位】" ++ s1, cs "【核心内容】" ++ s2, cs "【视觉元素】" ++ s3,
           cs "【排版要求】" ++ s4, cs "【细节补充】" ++ s5] ∧
      (generateXiaohongshuPrompt (cs "今天的阳光温暖") (cs "") (cs "narrative")).length ≤ 300 ∧
      ((xhsFullPrompt (cs "今天的阳光温暖") (cs "") (cs "narrative")).length > 300 →
        generateXiaohongshuPrompt (cs "今天的阳光温暖") (cs "") (cs "narrative") =
          joinSep (cs "；")
            [cs "【风格定位】" ++ specTruncate (xhsStylePositioning (cs "今天的阳光温暖") (cs "") (cs "narrative")) 15,
             cs "【核心内容】" ++ specTruncate (xhsCoreContent (cs "今天的阳光温暖")) 50,
             cs "【视觉元素】" ++ specTruncate (xhsVisualDesc (cs "今天的阳光温暖") (cs "narrative")) 60,
             cs "【排版要求】" ++ specTruncate buildLayoutRequirements 30,
             cs "【细节补充】" ++ specTruncate (xhsDetailSupplements (cs "今天的阳光温暖") (cs "narrative")) 25]) :=
  c4_prompt_sections (cs "今天的阳光温暖") (cs "") (cs "narrative")

/-! ## Claim C7: one unified style template per request -/

/-- **C7 counterexample.** For the text 户外风景 (extracted atmosphere 清新,
no emotions) and the user style hint 温馨治愈风格, the 【风格定位】 section is
built from the 温馨治愈 template, while 【视觉元素】 and 【细节补充】 re-derive
the style with an empty hint and get 清新自然: the visual description carries
the 清新色调 palette (not the 暖色调 one) and the details carry the 清爽质感
texture (not 柔和质感), so one request mixes two different templates. -/
theorem c7_counterexample :
    determineUnifiedStyle (extractArticleCoreInfo (cs "户外风景")) (cs "narrative")
      (cs "温馨治愈风格") = cs "温馨治愈" ∧
    determineUnifiedStyle (extractArticleCoreInfo (cs "户外风景")) [] [] = cs "清新自然" ∧
    buildStylePositioning (extractArticleCoreInfo (cs "户外风景")) (cs "narrative")
      (cs "温馨治愈风格") = cs "温馨治愈风格，温馨舒适，治愈感" ∧
    isSubstr (cs "清新色调")
      (buildVisualDescription
        (buildVisualElements (extractArticleCoreInfo (cs "户外风景")) (cs "narrative"))
        (extractArticleCoreInfo (cs "户外风景"))) = true ∧
    isSubstr (cs "暖色调")
      (buildVisualDescription
        (buildVisualElements (extractArticleCoreInfo (cs "户外风景")) (cs "narrative"))
        (extractArticleCoreInfo (cs "户外风景"))) = false ∧
    isSubstr (cs "柔和质感")
      (buildDetailSupplements (extractArticleCoreInfo (cs "户外风景")) (cs "narrative")) = false ∧
    isSubstr (cs "清爽质感")
      (buildDetailSupplements (extractArticleCoreInfo (cs "户外风景")) (cs "narrative")) = true := by
  decide

/-- **C7 (amended).** `_determine_unified_style` never reads its `text_type`
argument, and when the user style hint is empty or the falsy-equivalent
default 现代简约风格 every call site - `_build_style_positioning` (hint and
text type), `_build_visual_description` (empty hint and empty text type) and
`_build_detail_supplements` (empty hint, request text type) - resolves the
same template; with a non-default hint the claim fails (see the
counterexample). -/
theorem c7_unified_style_agreement (coreInfo : CoreInfo)
    (textType textType' stylePrompt : List Char)
    (h : stylePrompt = [] ∨ stylePrompt = cs "现代简约风格") :
    determineUnifiedStyle coreInfo textType stylePrompt =
      determineUnifiedStyle coreInfo [] [] ∧
    determineUnifiedStyle coreInfo textType [] =
      determineUnifiedStyle coreInfo textType' [] := by
  constructor
  · rcases h with h | h
    · subst h
      rfl
    · subst h
      simp only [determineUnifiedStyle]
      rw [if_neg (show ¬(cs "现代简约风格" ≠ ([] : List Char) ∧
            cs "现代简约风格" ≠ cs "现代简约风格") by simp),
        if_neg (show ¬(([] : List Char) ≠ ([] : List Char) ∧
            ([] : List Char) ≠ cs "现代简约风格") by simp)]
  · rfl

/-- Witness for C7 at a concrete request (default style hint). -/
theorem c7_unified_style_agreement_witness :
    determineUnifiedStyle (extractArticleCoreInfo (cs "窗外的风景")) (cs "narrative")
      (cs "现代简约风格") =
      determineUnifiedStyle (extractArticleCoreInfo (cs "窗外的风景")) [] [] ∧
    determineUnifiedStyle (extractArticleCoreInfo (cs "窗外的风景")) (cs "narrative") [] =
      determineUnifiedStyle (extractArticleCoreInfo (cs "窗外的风景")) (cs "descriptive") [] :=
  c7_unified_style_agreement _ _ _ _ (Or.inr rfl)

/-! ## Claim C6: analyze-text endpoint validation

Embedding of the `analyze_text` endpoint (src/backend/main.py lines
2234-2261) and the local path of `analyze_text_with_doubao` (lines
1240-1267, `client` unset) with `_generate_local_summary` (lines
1383-1403). -/

/-- The `TextSegment` pydantic model. -/
structure TextSegment where
  id : Nat
  content : List Char
  summary : List Char
  image_prompt : List Char

def narrativeSummaryKeywords : List (List Char) :=
  [cs "故事", cs "情节", cs "人物", cs "场景", cs "情感", cs "经历", cs "遇到", cs "发生"]

def argumentSummaryKeywords : List (List Char) :=
  [cs "观点", cs "论证", cs "分析", cs "认为", cs "因为", cs "所以", cs "结论"]

def descriptiveSummaryKeywords : List (List Char) :=
  [cs "介绍", cs "说明", cs "特点", cs "功能", cs "方法", cs "原理", cs "结构"]

/-- `_generate_local_summary`. -/
def generateLocalSummary (text : List Char) (segmentId : Nat) (textType : List Char) :
    List Char :=
  let keyPhrases :=
    if textType = cs "narrative" then
      narrativeSummaryKeywords.filter (fun kw => isSubstr kw text)
    else if textType = cs "argumentative" then
      argumentSummaryKeywords.filter (fun kw => isSubstr kw text)
    else descriptiveSummaryKeywords.filter (fun kw => isSubstr kw text)
  match keyPhrases with
  | kw :: _ => cs "第" ++ decimalRepr segmentId ++ cs "段：" ++ kw ++ cs "相关内容"
  | [] => cs "第" ++ decimalRepr segmentId ++ cs "段内容摘要"

/-- `analyze_text_with_doubao` on the local path (`client` unset): detect the
text type, segment (a `ValueError` raised by `_smart_segment_text`
propagates, the segmentation happens before the `try` block), then build one
`TextSegment` per chunk - ids `1..n` from `enumerate`. -/
def analyzeTextWithDoubaoLocal (text stylePrompt : List Char) :
    Except String (List TextSegment) :=
  let textType := detectTextType text
  (smartSegmentText text textType).map (fun rawSegments =>
    rawSegments.enum.map (fun p =>
      { id := p.1 + 1, content := p.2,
        summary := generateLocalSummary p.2 (p.1 + 1) textType,
        image_prompt := generateXiaohongshuPrompt p.2 stylePrompt textType }))

/-- A Python exception as observed by the endpoint's catch-all handler. -/
inductive PyExc where
  | http (status : Nat) (detail : List Char)
  | valueError (msg : List Char)

/-- Python `str(e)`: Starlette's `HTTPException.__str__` is
`f"{self.status_code}: {self.detail}"`, and `str(ValueError(msg))` is `msg`. -/
def excStr : PyExc → List Char
  | PyExc.http s d => decimalRepr s ++ cs ": " ++ d
  | PyExc.valueError m => m

/-- The `TextAnalysisResponse` pydantic model. -/
structure TextAnalysisResponse where
  segments : List TextSegment
  total_count : Nat
  estimated_time : Nat

/-- The `try:` body of the `analyze_text` endpoint, generic in the analysis
call (the real `analyze_text_with_doubao` may involve an external API; the
local instance is `analyzeTextWithDoubaoLocal`). Both validation failures
raise `HTTPException(400, ...)` inside the `try` block; `or` and `and` follow
Python truthiness (empty string and 0 are falsy). -/
def analyzeTextBody (analyze : List Char → List Char → Except String (List TextSegment))
    (text : List Char) (stylePrompt : Option (List Char)) (maxSegments : Option Nat) :
    Except PyExc TextAnalysisResponse :=
  if (pyStrip text).length = 0 then
    Except.error (PyExc.http 400 (cs "文本内容不能为空"))
  else if text.length > 10000 then
    Except.error (PyExc.http 400 (cs "文本长度不能超过10000字"))
  else
    let sp := match stylePrompt with
      | none => cs "现代简约风格"
      | some s => if s = [] then cs "现代简约风格" else s
    match analyze text sp with
    | Except.error m => Except.error (PyExc.valueError (cs m))
    | Except.ok segments =>
      let segments := match maxSegments with
        | some m => if m ≠ 0 ∧ segments.length > m then segments.take m else segments
        | none => segments
      Except.ok { segments := segments, total_count := segments.length,
                  estimated_time := segments.length * 30 }

/-- The `analyze_text` endpoint: every exception from the body - the
validation `HTTPException(400, ...)`s included - is caught by
`except Exception as e` and re-raised as
`HTTPException(500, f"文本分析失败: {str(e)}")`. -/
def analyzeTextEndpoint (analyze : List Char → List Char → Except String (List TextSegment))
    (text : List Char) (stylePrompt : Option (List Char)) (maxSegments : Option Nat) :
    Except (Nat × List Char) TextAnalysisResponse :=
  match analyzeTextBody analyze text stylePrompt maxSegments with
  | Except.ok r => Except.ok r
  | Except.error e => Except.error (500, cs "文本分析失败: " ++ excStr e)

/-- **C6 (code bug).** Empty-after-trim or oversized text is rejected before
any analysis runs - the body raises `HTTPException(400, ...)` without calling
the analysis function - but the endpoint's catch-all converts that exception
into a 500 response, so the client observes a server error, not the claimed
4xx client error. -/
theorem c6_validation_rejected_as_500
    (analyze : List Char → List Char → Except String (List TextSegment))
    (text : List Char) (stylePrompt : Option (List Char)) (maxSegments : Option Nat)
    (h : (pyStrip text).length = 0 ∨ text.length > 10000) :
    (analyzeTextBody analyze text stylePrompt maxSegments =
        Except.error (PyExc.http 400 (cs "文本内容不能为空")) ∨
     analyzeTextBody analyze text stylePrompt maxSegments =
        Except.error (PyExc.http 400 (cs "文本长度不能超过10000字"))) ∧
    ∃ d, analyzeTextEndpoint analyze text stylePrompt maxSegments =
        Except.error (500, d) := by
  by_cases h1 : (pyStrip text).length = 0
  · constructor
    · left
      simp only [analyzeTextBody]
      rw [if_pos h1]
    · refine ⟨cs "文本分析失败: " ++ excStr (PyExc.http 400 (cs "文本内容不能为空")), ?_⟩
      simp only [analyzeTextEndpoint, analyzeTextBody]
      rw [if_pos h1]
  · have h2 : text.length > 10000 := h.resolve_left h1
    constructor
    · right
      simp only [analyzeTextBody]
      rw [if_neg h1, if_pos h2]
    · refine ⟨cs "文本分析失败: " ++ excStr (PyExc.http 400 (cs "文本长度不能超过10000字")), ?_⟩
      simp only [analyzeTextEndpoint, analyzeTextBody]
      rw [if_neg h1, if_pos h2]

/-- Witness for C6: a whitespace-only request body through the local
analysis path. -/
theorem c6_validation_rejected_as_500_witness :
    (analyzeTextBody analyzeTextWithDoubaoLocal (cs "   ") none none =
        Except.error (PyExc.http 400 (cs "文本内容不能为空")) ∨
     analyzeTextBody analyzeTextWithDoubaoLocal (cs "   ") none none =
        Except.error (PyExc.http 400 (cs "文本长度不能超过10000字"))) ∧
    ∃ d, analyzeTextEndpoint analyzeTextWithDoubaoLocal (cs "   ") none none =
        Except.error (500, d) :=
  c6_validation_rejected_as_500 analyzeTextWithDoubaoLocal (cs "   ") none none
    (Or.inl (by decide))

/-! ## Claim C10: per-segment failure isolation in batch image generation

Embedding of `generate_images_with_seedream` (src/backend/main.py lines
2129-2223) over an oracle environment for the external calls. -/

/-- The `GeneratedImage` pydantic model. -/
structure GeneratedImage where
  segment_id : Nat
  image_url : List Char
  thumbnail_url : List Char
  status : List Char

/-- Outcome of the external SeeDream `client.images.generate` call for one
prompt, in the four cases the code distinguishes. -/
inductive ApiOutcome where
  | dataUrl (url : List Char)
  | imagesUrl (url : List Char)
  | badFormat
  | raised

/-- The external environment of `generate_images_with_seedream`: whether the
Volcano client is configured, the per-prompt API outcome, and the outcomes of
the local image generator and the image-text compositor (each may raise,
modelled as `Except.error`; the demo fallback `_generate_demo_image` is pure
and cannot raise). -/
structure GenEnv where
  hasClient : Bool
  api : List Char → ApiOutcome
  gen : List Char → Nat → Except Unit (List Char)
  compose : List Char → List Char → List Char → Except Unit (List Char)

/-- `https://picsum.photos/{w}/{h}?random={seed}`. -/
def picsum (w h seed : Nat) : List Char :=
  cs "https://picsum.photos/" ++ decimalRepr w ++ cs "/" ++ decimalRepr h ++
    cs "?random=" ++ decimalRepr seed

/-- One iteration of the `for segment in segments` loop of
`generate_images_with_seedream` (the `colors` list is computed and never
read afterwards, so it is omitted). -/
def processSegment (env : GenEnv) (stylePrompt : List Char) (seg : TextSegment) :
    GeneratedImage :=
  if env.hasClient then
    match env.api (stylePrompt ++ cs ", " ++ seg.image_prompt) with
    | ApiOutcome.dataUrl url =>
      { segment_id := seg.id, image_url := url, thumbnail_url := url,
        status := cs "completed" }
    | ApiOutcome.imagesUrl url =>
      { segment_id := seg.id, image_url := url, thumbnail_url := url,
        status := cs "completed" }
    | ApiOutcome.badFormat =>
      { segment_id := seg.id, image_url := picsum 600 800 (seg.id + 100),
        thumbnail_url := picsum 150 200 (seg.id + 100), status := cs "failed" }
    | ApiOutcome.raised =>
      { segment_id := seg.id, image_url := picsum 600 800 (seg.id + 200),
        thumbnail_url := picsum 150 200 (seg.id + 200), status := cs "failed" }
  else
    let imagePrompt := if seg.image_prompt ≠ [] then seg.image_prompt
      else stylePrompt ++ cs "，" ++ seg.content.take 100 ++ cs "..."
    match env.gen imagePrompt seg.id with
    | Except.ok originalUrl =>
      match env.compose originalUrl seg.content seg.summary with
      | Except.ok composedUrl =>
        { segment_id := seg.id, image_url := composedUrl,
          thumbnail_url := composedUrl, status := cs "completed" }
      | Except.error _ =>
        { segment_id := seg.id, image_url := generateDemoImage imagePrompt seg.id,
          thumbnail_url := generateDemoImage imagePrompt seg.id,
          status := cs "completed" }
    | Except.error _ =>
      { segment_id := seg.id, image_url := generateDemoImage imagePrompt seg.id,
        thumbnail_url := generateDemoImage imagePrompt seg.id,
        status := cs "completed" }

/-- `generate_images_with_seedream`: `images = []`, then one append per
segment in request order. -/
def generateImagesWithSeedream (env : GenEnv) (segments : List TextSegment)
    (stylePrompt : List Char) : List GeneratedImage :=
  segments.foldl (fun images seg => images ++ [processSegment env stylePrompt seg]) []

theorem foldl_append_processSegment (env : GenEnv) (stylePrompt : List Char) :
    ∀ (segments : List TextSegment) (acc : List GeneratedImage),
      segments.foldl (fun images seg => images ++ [processSegment env stylePrompt seg]) acc =
        acc ++ segments.map (processSegment env stylePrompt)
  | [], acc => by simp
  | s :: rest, acc => by
    simp only [List.foldl_cons, List.map_cons]
    rw [foldl_append_processSegment env stylePrompt rest
      (acc ++ [processSegment env stylePrompt s])]
    simp

theorem processSegment_segment_id (env : GenEnv) (stylePrompt : List Char)
    (seg : TextSegment) :
    (processSegment env stylePrompt seg).segment_id = seg.id := by
  simp only [processSegment]
  split
  · split <;> rfl
  · split
    · split <;> rfl
    · rfl

theorem processSegment_status (env : GenEnv) (stylePrompt : List Char)
    (seg : TextSegment) :
    (processSegment env stylePrompt seg).status = cs "completed" ∨
    (processSegment env stylePrompt seg).status = cs "failed" := by
  simp only [processSegment]
  split
  · split
    · exact Or.inl rfl
    · exact Or.inl rfl
    · exact Or.inr rfl
    · exact Or.inr rfl
  · split
    · split
      · exact Or.inl rfl
      · exact Or.inl rfl
    · exact Or.inl rfl

/-- **C10.** For every batch and every behaviour of the external calls, the
result holds exactly one `GeneratedImage` per input segment, in request
order (the i-th result carries the i-th segment's id), and each status is
`completed` or `failed` - a failing generate or compose call for one segment
yields a placeholder for that segment and never fails the batch or drops a
segment. -/
theorem c10_batch_isolation (env : GenEnv) (segments : List TextSegment)
    (stylePrompt : List Char) :
    (generateImagesWithSeedream env segments stylePrompt).length = segments.length ∧
    ∀ i, i < segments.length →
      ((generateImagesWithSeedream env segments stylePrompt).getD i
          { segment_id := 0, image_url := [], thumbnail_url := [], status := [] }).segment_id =
        (segments.getD i { id := 0, content := [], summary := [], image_prompt := [] }).id ∧
      (((generateImagesWithSeedream env segments stylePrompt).getD i
          { segment_id := 0, image_url := [], thumbnail_url := [], status := [] }).status =
          cs "completed" ∨
       ((generateImagesWithSeedream env segments stylePrompt).getD i
          { segment_id := 0, image_url := [], thumbnail_url := [], status := [] }).status =
          cs "failed") := by
  have hmap : generateImagesWithSeedream env segments stylePrompt =
      segments.map (processSegment env stylePrompt) := by
    unfold generateImagesWithSeedream
    rw [foldl_append_processSegment]
    simp
  constructor
  · rw [hmap, List.length_map]
  · intro i hi
    have hi' : i < (segments.map (processSegment env stylePrompt)).length := by
      rw [List.length_map]
      exact hi
    rw [hmap, List.getD_eq_getElem _ _ hi', List.getElem_map,
      List.getD_eq_getElem _ _ hi]
    exact ⟨processSegment_segment_id env stylePrompt _, processSegment_status env stylePrompt _⟩

def c10seg : TextSegment :=
  { id := 7, content := cs "你好", summary := cs "摘要", image_prompt := cs "提示" }

/-- An environment in which both the local generator and the compositor
raise for every segment. -/
def c10env : GenEnv :=
  { hasClient := false, api := fun _ => ApiOutcome.raised,
    gen := fun _ _ => Except.error (), compose := fun _ _ _ => Except.error () }

/-- Witness for C10: a one-segment batch in an environment where every
external call raises. -/
theorem c10_batch_isolation_witness :
    (generateImagesWithSeedream c10env [c10seg] (cs "现代简约风格")).length =
      [c10seg].length ∧
    (((generateImagesWithSeedream c10env [c10seg] (cs "现代简约风格")).getD 0
        { segment_id := 0, image_url := [], thumbnail_url := [], status := [] }).segment_id =
      ([c10seg].getD 0 { id := 0, content := [], summary := [], image_prompt := [] }).id ∧
     (((generateImagesWithSeedream c10env [c10seg] (cs "现代简约风格")).getD 0
        { segment_id := 0, image_url := [], thumbnail_url := [], status := [] }).status =
        cs "completed" ∨
      ((generateImagesWithSeedream c10env [c10seg] (cs "现代简约风格")).getD 0
        { segment_id := 0, image_url := [], thumbnail_url := [], status := [] }).status =
        cs "failed")) :=
  ⟨(c10_batch_isolation c10env [c10seg] (cs "现代简约风格")).1,
   (c10_batch_isolation c10env [c10seg] (cs "现代简约风格")).2 0 (by decide)⟩
